import Mathlib

/-!
Shallow embedding of the resource/relationship consistency subsystem of the
Anythink Market backend (routes under backend/routes/api: tags.js second
router with the item routes, profiles.js, users.js, comments.js).

The live mongoose model file (the User model with the favorite, unfavorite,
follow, unfollow and setPassword methods, and the Item model with slug
generation, updateFavoriteCount and the remove cascade) is not present in
the sources; only its callers (the route files) and its tests are.  Those
model methods are therefore modelled from the spec, each marked by a doc
comment starting with the words Modelled from the spec.  Everything else is
translated directly from the route code.
-/

namespace Anythink

abbrev UserId := Nat

abbrev ItemId := Nat

abbrev CommentId := Nat

/-- A User document (spec section 3; favorites and following are id lists). -/
structure User where
  id : UserId
  username : String
  email : String
  bio : Option String
  image : Option String
  salt : String
  hash : String
  favorites : List ItemId
  following : List UserId
deriving DecidableEq, Repr

structure Item where
  id : ItemId
  slug : String
  title : String
  description : Option String
  body : Option String
  image : Option String
  tagList : List String
  seller : UserId
  comments : List CommentId
  favoritesCount : Nat
deriving DecidableEq, Repr

/-- A Comment document; the tags.js comment route sets comment.item and
comment.seller, so those are the reference field names. -/
structure Comment where
  id : CommentId
  body : String
  seller : UserId
  item : ItemId
deriving DecidableEq, Repr

structure DB where
  users : List User
  items : List Item
  comments : List Comment
  nextId : Nat
deriving DecidableEq, Repr

def emptyDB : DB := { users := [], items := [], comments := [], nextId := 0 }

/-- User.findById: first user whose id matches. -/
def findUserById (db : DB) (uid : UserId) : Option User :=
  db.users.find? (fun u => u.id == uid)

def findUserByUsername (db : DB) (name : String) : Option User :=
  db.users.find? (fun u => u.username == name)

/-- Item.findOne by slug (the router.param item preload in tags.js). -/
def findItemBySlug (db : DB) (slug : String) : Option Item :=
  db.items.find? (fun i => i.slug == slug)

def findItemById (db : DB) (iid : ItemId) : Option Item :=
  db.items.find? (fun i => i.id == iid)

/-- Comment.findById (the router.param comment preload in tags.js). -/
def findCommentById (db : DB) (cid : CommentId) : Option Comment :=
  db.comments.find? (fun c => c.id == cid)

def saveUser (db : DB) (u : User) : DB :=
  { db with users := db.users.map (fun v => if v.id == u.id then u else v) }

/-- Persisting a modified item document. -/
def saveItem (db : DB) (it : Item) : DB :=
  { db with items := db.items.map (fun j => if j.id == it.id then it else j) }

def saveComment (db : DB) (c : Comment) : DB :=
  { db with comments := db.comments.map (fun d => if d.id == c.id then c else d) }

/-- HTTP-level outcome of a route, as far as the claims need it. -/
inductive RouteResult where
  | ok
  | created
  | noContent
  | status (code : Nat)
  | validationFailed
deriving DecidableEq, Repr

def authRequired (payload : Option UserId) (db : DB)
    (handler : UserId → RouteResult × DB) : RouteResult × DB :=
  match payload with
  | none => (RouteResult.status 401, db)
  | some uid => handler uid

/-- Modelled from the spec: User.favorite (User model not in the sources) —
adds the item id to the favorites set; adding an already-favorited item is a
no-op, not an error (spec section 4.3). -/
def User.favorite (u : User) (itemId : ItemId) : User :=
  if itemId ∈ u.favorites then u
  else { u with favorites := u.favorites ++ [itemId] }

def User.unfavorite (u : User) (itemId : ItemId) : User :=
  { u with favorites := u.favorites.filter (fun i => i != itemId) }

/-- Modelled from the spec: User.follow — fails with ValidationError if the
follower and the target are the same user, otherwise adds the target to the
following set (idempotent) (spec sections 4.3 and 8). -/
def User.follow (u : User) (target : UserId) : Option User :=
  if u.id == target then none
  else if target ∈ u.following then some u
  else some { u with following := u.following ++ [target] }

def User.unfollow (u : User) (target : UserId) : Option User :=
  if u.id == target then none
  else some { u with following := u.following.filter (fun v => v != target) }

/-- Modelled from the spec: setPassword derives a salt and a keyed hash of
the password; the PBKDF2 call itself is out of scope, so an injective
stand-in keyed-hash function is used. -/
def hashOf (salt password : String) : String :=
  salt ++ "#" ++ password

def setPassword (u : User) (password : String) : User :=
  { u with salt := "salt", hash := hashOf "salt" password }

/-- Modelled from the spec: the fresh scan of recomputeFavoritesCount (spec
section 4.4) — the number of Users whose favorites set contains the item id. -/
def countFavoriters (db : DB) (iid : ItemId) : Nat :=
  (db.users.filter (fun u => decide (iid ∈ u.favorites))).length

def Item.updateFavoriteCount (it : Item) (db : DB) : Item × DB :=
  let it2 := { it with favoritesCount := countFavoriters db it.id }
  (it2, saveItem db it2)

/-- Modelled from the spec: the cascade run by item.remove() — deletes the
Item and, in the same logical operation, every Comment whose item reference
matches (spec section 4.4, cascadeDeleteItem).  Users' favorites lists are
not touched (spec section 9 notes the dangling favorite references). -/
def cascadeDeleteItem (db : DB) (iid : ItemId) : DB :=
  { db with
    items := db.items.filter (fun i => i.id != iid),
    comments := db.comments.filter (fun c => c.item != iid) }

def slugify (title : String) : String :=
  "item-" ++ title

/-- The Item schema declares no path named _1d, so reading req.item._1d on a
mongoose document yields undefined; this is that property access. -/
def jsGet_1d (_it : Item) : Option ItemId :=
  none

def unfavTargetId (it : Item) : ItemId :=
  (jsGet_1d it).getD it.id

/-- The request body of the item update route (req.body.item); each field is
present or absent. -/
structure ItemUpdate where
  title : Option String
  description : Option String
  image : Option String
  tagList : Option (List String)
  body : Option String
deriving DecidableEq, Repr

def applyItemUpdate (it : Item) (b : ItemUpdate) : Item :=
  { it with
    title := b.title.getD it.title,
    description := match b.description with
      | some d => some d
      | none => it.description,
    image := match b.image with
      | some im => some im
      | none => it.image,
    tagList := b.tagList.getD it.tagList }

/-- PUT /api/items/:item (tags.js lines 139 to 154): preload by slug, require
auth, 403 unless the caller is the seller, then apply the partial update and
save. -/
def updateItemRoute (payload : Option UserId) (slug : String) (b : ItemUpdate)
    (db : DB) : RouteResult × DB :=
  match findItemBySlug db slug with
  | none => (RouteResult.status 404, db)
  | some item =>
    authRequired payload db (fun uid =>
      if item.seller != uid then (RouteResult.status 403, db)
      else (RouteResult.ok, saveItem db (applyItemUpdate item b)))

def deleteItemRoute (payload : Option UserId) (slug : String)
    (db : DB) : RouteResult × DB :=
  match findItemBySlug db slug with
  | none => (RouteResult.status 404, db)
  | some item =>
    authRequired payload db (fun uid =>
      match findUserById db uid with
      | none => (RouteResult.status 401, db)
      | some _user =>
        if item.seller == uid then (RouteResult.noContent, cascadeDeleteItem db item.id)
        else (RouteResult.status 403, db))

/-- POST /api/items/:item/favorite (tags.js lines 174 to 186): itemId is
req.item._id; toggle the membership on the user then recompute the item's
favorites count. -/
def favoriteItemRoute (payload : Option UserId) (slug : String)
    (db : DB) : RouteResult × DB :=
  match findItemBySlug db slug with
  | none => (RouteResult.status 404, db)
  | some item =>
    authRequired payload db (fun uid =>
      match findUserById db uid with
      | none => (RouteResult.status 401, db)
      | some user =>
        let itemId := item.id
        let db1 := saveUser db (user.favorite itemId)
        let r := item.updateFavoriteCount db1
        (RouteResult.ok, r.2))

def unfavoriteItemRoute (payload : Option UserId) (slug : String)
    (db : DB) : RouteResult × DB :=
  match findItemBySlug db slug with
  | none => (RouteResult.status 404, db)
  | some item =>
    authRequired payload db (fun uid =>
      match findUserById db uid with
      | none => (RouteResult.status 401, db)
      | some user =>
        let itemId := unfavTargetId item
        let db1 := saveUser db (user.unfavorite itemId)
        let r := item.updateFavoriteCount db1
        (RouteResult.ok, r.2))

/-- POST /api/profiles/:username/follow (profiles.js lines 30 to 40): preload
the profile by username, require auth, run user.follow(profile id); a
ValidationError thrown by the model is caught and surfaced as a failure with
no state change. -/
def followProfileRoute (payload : Option UserId) (name : String)
    (db : DB) : RouteResult × DB :=
  match findUserByUsername db name with
  | none => (RouteResult.status 404, db)
  | some profile =>
    authRequired payload db (fun uid =>
      match findUserById db uid with
      | none => (RouteResult.status 401, db)
      | some user =>
        match user.follow profile.id with
        | none => (RouteResult.validationFailed, db)
        | some u2 => (RouteResult.ok, saveUser db u2))

def unfollowProfileRoute (payload : Option UserId) (name : String)
    (db : DB) : RouteResult × DB :=
  match findUserByUsername db name with
  | none => (RouteResult.status 404, db)
  | some profile =>
    authRequired payload db (fun uid =>
      match findUserById db uid with
      | none => (RouteResult.status 401, db)
      | some user =>
        match user.unfollow profile.id with
        | none => (RouteResult.validationFailed, db)
        | some u2 => (RouteResult.ok, saveUser db u2))

/-- POST /api/items/:item/comments (tags.js lines 218 to 234): require auth,
create the comment with item and seller set from the request context, then
append its id to the item's comments list and save the item. -/
def createItemCommentRoute (payload : Option UserId) (slug : String)
    (cbody : String) (db : DB) : RouteResult × DB :=
  match findItemBySlug db slug with
  | none => (RouteResult.status 404, db)
  | some item =>
    authRequired payload db (fun uid =>
      match findUserById db uid with
      | none => (RouteResult.status 401, db)
      | some _user =>
        let c : Comment := { id := db.nextId, body := cbody, seller := uid, item := item.id }
        let db1 : DB := { db with comments := db.comments ++ [c], nextId := db.nextId + 1 }
        let item2 := { item with comments := item.comments ++ [c.id] }
        (RouteResult.ok, saveItem db1 item2))

def deleteItemCommentRoute (payload : Option UserId) (slug : String)
    (cid : CommentId) (db : DB) : RouteResult × DB :=
  match findItemBySlug db slug with
  | none => (RouteResult.status 404, db)
  | some item =>
    match findCommentById db cid with
    | none => (RouteResult.status 404, db)
    | some comment =>
      authRequired payload db (fun _uid =>
        let item2 := { item with comments := item.comments.filter (fun d => d != comment.id) }
        let db1 := saveItem db item2
        (RouteResult.noContent,
          { db1 with comments := db1.comments.filter (fun c => c.id != comment.id) }))

/-- The request body of the generic comment routes (comments.js): an
arbitrary caller-supplied document. -/
structure CommentBody where
  body : Option String
  seller : Option UserId
  item : Option ItemId
deriving DecidableEq, Repr

def commentsCreateRoute (cb : CommentBody) (db : DB) : RouteResult × DB :=
  match cb.body, cb.seller, cb.item with
  | some b, some s, some i =>
    (RouteResult.created,
      { db with comments := db.comments ++ [{ id := db.nextId, body := b, seller := s, item := i }],
                nextId := db.nextId + 1 })
  | _, _, _ => (RouteResult.status 500, db)

/-- PUT /api/comments/:id (comments.js lines 51 to 59): findByIdAndUpdate
with the raw request body; no auth middleware. -/
def commentsUpdateRoute (cid : CommentId) (cb : CommentBody)
    (db : DB) : RouteResult × DB :=
  match findCommentById db cid with
  | none => (RouteResult.status 404, db)
  | some c =>
    let c2 : Comment :=
      { c with
        body := cb.body.getD c.body,
        seller := cb.seller.getD c.seller,
        item := cb.item.getD c.item }
    (RouteResult.ok, saveComment db c2)

def commentsDeleteRoute (cid : CommentId) (db : DB) : RouteResult × DB :=
  match findCommentById db cid with
  | none => (RouteResult.status 404, db)
  | some c =>
    (RouteResult.noContent,
      { db with comments := db.comments.filter (fun d => d.id != c.id) })

/-- The request body of the user update route (req.body.user). -/
structure UserUpdate where
  username : Option String
  email : Option String
  bio : Option String
  image : Option String
  password : Option String
deriving DecidableEq, Repr

def applyUserUpdate (u : User) (b : UserUpdate) : User :=
  let u1 : User :=
    { u with
      username := b.username.getD u.username,
      email := b.email.getD u.email,
      bio := match b.bio with
        | some s => some s
        | none => u.bio,
      image := match b.image with
        | some s => some s
        | none => u.image }
  match b.password with
  | some p => setPassword u1 p
  | none => u1

/-- Modelled from the spec: username and email are each globally unique, so
the unique-validator rejects a save that collides with a different stored
user. -/
def uniqueConflict (db : DB) (u : User) : Bool :=
  db.users.any (fun v => v.id != u.id && (v.username == u.username || v.email == u.email))

def updateUserRoute (payload : Option UserId) (b : UserUpdate)
    (db : DB) : RouteResult × DB :=
  authRequired payload db (fun uid =>
    match findUserById db uid with
    | none => (RouteResult.status 401, db)
    | some user =>
      let u2 := applyUserUpdate user b
      if uniqueConflict db u2 then (RouteResult.validationFailed, db)
      else (RouteResult.ok, saveUser db u2))

/-- The request body of registration (req.body.user in POST /api/users). -/
structure NewUser where
  username : String
  email : String
  password : String
deriving DecidableEq, Repr

def registerRoute (nu : NewUser) (db : DB) : RouteResult × DB :=
  if db.users.any (fun v => v.username == nu.username || v.email == nu.email) then
    (RouteResult.validationFailed, db)
  else
    let u := setPassword
      { id := db.nextId, username := nu.username, email := nu.email,
        bio := none, image := none, salt := "", hash := "",
        favorites := [], following := [] } nu.password
    (RouteResult.ok, { db with users := db.users ++ [u], nextId := db.nextId + 1 })

/-- The request body of item creation (req.body.item in POST /api/items). -/
structure NewItem where
  title : String
  description : Option String
  body : Option String
  image : Option String
  tagList : List String
deriving DecidableEq, Repr

def createItemRoute (payload : Option UserId) (ni : NewItem)
    (db : DB) : RouteResult × DB :=
  authRequired payload db (fun uid =>
    match findUserById db uid with
    | none => (RouteResult.status 401, db)
    | some _user =>
      let s := slugify ni.title
      if db.items.any (fun i => i.slug == s) then (RouteResult.validationFailed, db)
      else
        let it : Item :=
          { id := db.nextId, slug := s, title := ni.title,
            description := ni.description, body := ni.body, image := ni.image,
            tagList := ni.tagList, seller := uid, comments := [], favoritesCount := 0 }
        (RouteResult.ok, { db with items := db.items ++ [it], nextId := db.nextId + 1 }))

/-- One mutating operation of the system, as dispatched by the routing
layer. -/
inductive Op where
  | register (nu : NewUser)
  | updateUser (payload : Option UserId) (b : UserUpdate)
  | createItem (payload : Option UserId) (ni : NewItem)
  | updateItem (payload : Option UserId) (slug : String) (b : ItemUpdate)
  | deleteItem (payload : Option UserId) (slug : String)
  | favorite (payload : Option UserId) (slug : String)
  | unfavorite (payload : Option UserId) (slug : String)
  | follow (payload : Option UserId) (name : String)
  | unfollow (payload : Option UserId) (name : String)
  | createItemComment (payload : Option UserId) (slug : String) (cbody : String)
  | deleteItemComment (payload : Option UserId) (slug : String) (cid : CommentId)
  | commentsCreate (cb : CommentBody)
  | commentsUpdate (cid : CommentId) (cb : CommentBody)
  | commentsDelete (cid : CommentId)
deriving DecidableEq, Repr

def applyOp : Op → DB → DB
  | Op.register nu, db => (registerRoute nu db).2
  | Op.updateUser p b, db => (updateUserRoute p b db).2
  | Op.createItem p ni, db => (createItemRoute p ni db).2
  | Op.updateItem p slug b, db => (updateItemRoute p slug b db).2
  | Op.deleteItem p slug, db => (deleteItemRoute p slug db).2
  | Op.favorite p slug, db => (favoriteItemRoute p slug db).2
  | Op.unfavorite p slug, db => (unfavoriteItemRoute p slug db).2
  | Op.follow p name, db => (followProfileRoute p name db).2
  | Op.unfollow p name, db => (unfollowProfileRoute p name db).2
  | Op.createItemComment p slug cbody, db => (createItemCommentRoute p slug cbody db).2
  | Op.deleteItemComment p slug cid, db => (deleteItemCommentRoute p slug cid db).2
  | Op.commentsCreate cb, db => (commentsCreateRoute cb db).2
  | Op.commentsUpdate cid cb, db => (commentsUpdateRoute cid cb db).2
  | Op.commentsDelete cid, db => (commentsDeleteRoute cid db).2

/-- States reachable from the empty store by any sequence of operations. -/
inductive Reachable : DB → Prop where
  | init : Reachable emptyDB
  | step (op : Op) (db : DB) : Reachable db → Reachable (applyOp op db)

/-- No user follows itself (spec section 3 invariant). -/
def NoSelfFollow (db : DB) : Prop :=
  ∀ u ∈ db.users, u.id ∉ u.following

/-- Each item's comments list holds exactly the ids of the comments whose
item reference is that item (spec section 3 invariant). -/
def CommentsConsistent (db : DB) : Prop :=
  ∀ i ∈ db.items, ∀ cid : CommentId,
    cid ∈ i.comments ↔ ∃ c ∈ db.comments, c.id = cid ∧ c.item = i.id

/-- Sample store used to instantiate theorems: two users, one item owned by
the first user. -/
def sampleAlice : User :=
  { id := 0, username := "alice", email := "alice@x.com", bio := none, image := none,
    salt := "", hash := "", favorites := [], following := [] }

def sampleBob : User :=
  { id := 1, username := "bob", email := "bob@x.com", bio := none, image := none,
    salt := "", hash := "", favorites := [], following := [] }

def sampleBike : Item :=
  { id := 2, slug := "bike", title := "Bike", description := none, body := some "old",
    image := none, tagList := [], seller := 0, comments := [], favoritesCount := 0 }

def sampleDB : DB :=
  { users := [sampleAlice, sampleBob], items := [sampleBike], comments := [], nextId := 3 }

/-- An item-update request body supplying nothing. -/
def noUpd : ItemUpdate :=
  { title := none, description := none, image := none, tagList := none, body := none }

def FreshCountAt (db : DB) (iid : ItemId) : Prop :=
  (∃ i ∈ db.items, i.id = iid) ∧
  ∀ i ∈ db.items, i.id = iid → i.favoritesCount = countFavoriters db iid

def c9NewItem : NewItem :=
  { title := "Trike", description := none, body := none, image := none, tagList := [] }

/-- The title-changing update body used for the C9 witness. -/
def c9Upd : ItemUpdate :=
  { title := some "New Bike", description := none, image := none, tagList := none, body := none }

def c8ItemUpd : ItemUpdate :=
  { title := some "T2", description := none, image := none, tagList := none, body := none }

/-- The bio-only update body used for the C8 witness. -/
def c8UserUpd : UserUpdate :=
  { username := none, email := none, bio := some "hey", image := none, password := none }

/-- An update body supplying only a new item body text. -/
def c8BodyUpd : ItemUpdate :=
  { title := none, description := none, image := none, tagList := none, body := some "new" }

/-- A store in which bob has already favorited the bike (used to refute the
unconditional favorite-unfavorite roundtrip). -/
def c5AlreadyFav : DB :=
  { users := [sampleAlice, { sampleBob with favorites := [2] }],
    items := [{ sampleBike with favoritesCount := 1 }], comments := [], nextId := 3 }

/-- Registration of alice, the first operation of the counterexample chains. -/
def regAlice : Op := Op.register { username := "alice", email := "alice@x.com", password := "pw" }

/-- Creation of item A (gets id 1, slug item-A). -/
def mkItemA : Op :=
  Op.createItem (some 0) { title := "A", description := none, body := none, image := none, tagList := [] }

/-- Creation of item B (gets id 2, slug item-B). -/
def mkItemB : Op :=
  Op.createItem (some 0) { title := "B", description := none, body := none, image := none, tagList := [] }

/-- A comment posted on item A through the item-scoped route. -/
def cmtA : Op := Op.createItemComment (some 0) "item-A" "hello"

/-- Register, create item A, comment on it, then delete the comment through
the generic comments.js route: the comment record disappears but its id stays
in item A's comments list. -/
def c7Chain1 : DB :=
  applyOp (Op.commentsDelete 2) (applyOp cmtA (applyOp mkItemA (applyOp regAlice emptyDB)))

/-- Register, create items A and B, comment on A, then call the item-scoped
comment delete through item B's slug with A's comment id: the record is
deleted but A's list keeps the id. -/
def c7Chain2 : DB :=
  applyOp (Op.deleteItemComment (some 0) "item-B" 3)
    (applyOp cmtA (applyOp mkItemB (applyOp mkItemA (applyOp regAlice emptyDB))))

/-- Register, create item A, then create a comment referencing it through the
generic comments.js route: the record exists but A's list does not hold it. -/
def c7Chain3 : DB :=
  applyOp (Op.commentsCreate { body := some "x", seller := some 0, item := some 1 })
    (applyOp mkItemA (applyOp regAlice emptyDB))

/-- Register, create item A, comment on it, then repoint the comment's item
reference through the generic comments.js update route. -/
def c7Chain4 : DB :=
  applyOp (Op.commentsUpdate 2 { body := none, seller := none, item := some 99 })
    (applyOp cmtA (applyOp mkItemA (applyOp regAlice emptyDB)))

/-- A consistent state built from the item-scoped operations only. -/
def c7Good : DB := applyOp cmtA (applyOp mkItemA (applyOp regAlice emptyDB))

/-- Item A as stored in c7Chain1 and c7Chain4. -/
def c7ItemA1 : Item :=
  { id := 1, slug := "item-A", title := "A", description := none, body := none,
    image := none, tagList := [], seller := 0, comments := [2], favoritesCount := 0 }

/-- Item A as stored in c7Chain2. -/
def c7ItemA3 : Item :=
  { id := 1, slug := "item-A", title := "A", description := none, body := none,
    image := none, tagList := [], seller := 0, comments := [3], favoritesCount := 0 }

/-- Item A as stored in c7Chain3. -/
def c7ItemA0 : Item :=
  { id := 1, slug := "item-A", title := "A", description := none, body := none,
    image := none, tagList := [], seller := 0, comments := [], favoritesCount := 0 }

/-- The operations excluded by the amended comments invariant: the generic
comments.js routes are never allowed, and the item-scoped comment delete is
allowed only when the addressed comment belongs to the addressed item. -/
def ScopedOp : Op → DB → Prop
  | Op.commentsCreate _, _ => False
  | Op.commentsUpdate _ _, _ => False
  | Op.commentsDelete _, _ => False
  | Op.deleteItemComment _ slug cid, db =>
      ∀ item comment, findItemBySlug db slug = some item →
        findCommentById db cid = some comment → comment.item = item.id
  | _, _ => True

/-- States reachable from the empty store using only scoped operations. -/
inductive ReachableScoped : DB → Prop where
  | init : ReachableScoped emptyDB
  | step (op : Op) (db : DB) : ReachableScoped db → ScopedOp op db →
      ReachableScoped (applyOp op db)

/-- Well-formedness carried through the induction: every stored id is below
the fresh-id counter and comment ids are pairwise distinct. -/
def IdsOk (db : DB) : Prop :=
  (∀ i ∈ db.items, i.id < db.nextId ∧ ∀ cid ∈ i.comments, cid < db.nextId) ∧
  (∀ c ∈ db.comments, c.id < db.nextId ∧ c.item < db.nextId) ∧
  (db.comments.map Comment.id).Nodup

lemma find?_map_replace {α : Type} (p : α → Bool) (key : α → Nat) (l : List α)
    (x y : α) (hf : l.find? p = some x) (hpy : p y = true) (hk : key y = key x) :
    (l.map (fun a => if key a == key y then y else a)).find? p = some y := by
  induction l with
  | nil => cases hf
  | cons a t ih =>
    by_cases hpa : p a
    · rw [List.find?_cons_of_pos _ hpa] at hf
      injection hf with hax
      subst hax
      have hkey : (key a == key y) = true := by simp [hk]
      simp only [List.map_cons, hkey, if_true]
      exact List.find?_cons_of_pos _ hpy
    · rw [List.find?_cons_of_neg _ (by simpa using hpa)] at hf
      simp only [List.map_cons]
      by_cases hk2 : (key a == key y) = true
      · simp only [hk2, if_true]
        exact List.find?_cons_of_pos _ hpy
      · simp only [hk2, if_false]
        rw [List.find?_cons_of_neg _ (by simpa using hpa)]
        exact ih hf

lemma eq_of_nodup_key {α : Type} (key : α → Nat) (l : List α)
    (hn : (l.map key).Nodup) (x a : α) (hx : x ∈ l) (ha : a ∈ l)
    (hk : key a = key x) : a = x :=
  List.inj_on_of_nodup_map hn ha hx hk

@[simp] lemma saveUser_items (db : DB) (u : User) : (saveUser db u).items = db.items := rfl

@[simp] lemma saveUser_comments (db : DB) (u : User) : (saveUser db u).comments = db.comments := rfl

@[simp] lemma saveUser_nextId (db : DB) (u : User) : (saveUser db u).nextId = db.nextId := rfl

@[simp] lemma saveItem_users (db : DB) (it : Item) : (saveItem db it).users = db.users := rfl

@[simp] lemma saveItem_comments (db : DB) (it : Item) : (saveItem db it).comments = db.comments := rfl

@[simp] lemma saveItem_nextId (db : DB) (it : Item) : (saveItem db it).nextId = db.nextId := rfl

@[simp] lemma saveComment_users (db : DB) (c : Comment) : (saveComment db c).users = db.users := rfl

@[simp] lemma saveComment_items (db : DB) (c : Comment) : (saveComment db c).items = db.items := rfl

@[simp] lemma cascade_users (db : DB) (iid : ItemId) : (cascadeDeleteItem db iid).users = db.users := rfl

lemma findUserById_id {db : DB} {uid : UserId} {u : User}
    (h : findUserById db uid = some u) : u.id = uid := by
  have := List.find?_some h
  simpa using this

lemma findUserById_mem {db : DB} {uid : UserId} {u : User}
    (h : findUserById db uid = some u) : u ∈ db.users :=
  List.mem_of_find?_eq_some h

lemma findUserByUsername_mem {db : DB} {name : String} {u : User}
    (h : findUserByUsername db name = some u) : u ∈ db.users :=
  List.mem_of_find?_eq_some h

lemma findItemBySlug_slug {db : DB} {slug : String} {it : Item}
    (h : findItemBySlug db slug = some it) : it.slug = slug := by
  have := List.find?_some h
  simpa using this

lemma findItemBySlug_mem {db : DB} {slug : String} {it : Item}
    (h : findItemBySlug db slug = some it) : it ∈ db.items :=
  List.mem_of_find?_eq_some h

lemma findCommentById_id {db : DB} {cid : CommentId} {c : Comment}
    (h : findCommentById db cid = some c) : c.id = cid := by
  have := List.find?_some h
  simpa using this

lemma findCommentById_mem {db : DB} {cid : CommentId} {c : Comment}
    (h : findCommentById db cid = some c) : c ∈ db.comments :=
  List.mem_of_find?_eq_some h

lemma findUserById_saveUser {db : DB} {uid : UserId} {user u2 : User}
    (hf : findUserById db uid = some user) (hid : u2.id = user.id) :
    findUserById (saveUser db u2) uid = some u2 := by
  have huid : user.id = uid := findUserById_id hf
  exact find?_map_replace (fun v : User => v.id == uid) User.id db.users user u2 hf
    (by simp [hid, huid]) hid

lemma findItemBySlug_saveItem {db : DB} {slug : String} {item it2 : Item}
    (hf : findItemBySlug db slug = some item) (hid : it2.id = item.id)
    (hslug : it2.slug = item.slug) :
    findItemBySlug (saveItem db it2) slug = some it2 := by
  have hs : item.slug = slug := findItemBySlug_slug hf
  exact find?_map_replace (fun i : Item => i.slug == slug) Item.id db.items item it2 hf
    (by simp [hslug, hs]) hid

lemma findUserById_saveItem {db : DB} {uid : UserId} (it : Item) :
    findUserById (saveItem db it) uid = findUserById db uid := rfl

lemma findItemBySlug_saveUser {db : DB} {slug : String} (u : User) :
    findItemBySlug (saveUser db u) slug = findItemBySlug db slug := rfl

lemma countFavoriters_saveItem (db : DB) (it : Item) (iid : ItemId) :
    countFavoriters (saveItem db it) iid = countFavoriters db iid := rfl

/-- Unfolding of the favorite route in the successful case. -/
lemma favoriteItemRoute_eq {db : DB} {slug : String} {uid : UserId}
    {item : Item} {user : User}
    (hI : findItemBySlug db slug = some item) (hU : findUserById db uid = some user) :
    favoriteItemRoute (some uid) slug db =
      (RouteResult.ok, (item.updateFavoriteCount (saveUser db (user.favorite item.id))).2) := by
  simp only [favoriteItemRoute, hI, authRequired, hU]

lemma unfavoriteItemRoute_eq {db : DB} {slug : String} {uid : UserId}
    {item : Item} {user : User}
    (hI : findItemBySlug db slug = some item) (hU : findUserById db uid = some user) :
    unfavoriteItemRoute (some uid) slug db =
      (RouteResult.ok, (item.updateFavoriteCount (saveUser db (user.unfavorite item.id))).2) := by
  simp only [unfavoriteItemRoute, hI, authRequired, hU, unfavTargetId, jsGet_1d, Option.getD]

theorem c10_unfavorite_target :
    (∀ it : Item, unfavTargetId it = it.id) ∧
    (∀ (db : DB) (slug : String) (uid : UserId) (item : Item) (user : User),
      findItemBySlug db slug = some item → findUserById db uid = some user →
      unfavoriteItemRoute (some uid) slug db =
        (RouteResult.ok, (item.updateFavoriteCount (saveUser db (user.unfavorite item.id))).2) ∧
      favoriteItemRoute (some uid) slug db =
        (RouteResult.ok, (item.updateFavoriteCount (saveUser db (user.favorite item.id))).2)) :=
  ⟨fun _ => rfl,
   fun _ _ _ _ _ hI hU => ⟨unfavoriteItemRoute_eq hI hU, favoriteItemRoute_eq hI hU⟩⟩

/-- Witness for C10 at a concrete store. -/
theorem c10_witness :
    unfavTargetId sampleBike = sampleBike.id ∧
    unfavoriteItemRoute (some 1) "bike" sampleDB =
      (RouteResult.ok,
        (sampleBike.updateFavoriteCount (saveUser sampleDB (sampleBob.unfavorite sampleBike.id))).2) :=
  ⟨c10_unfavorite_target.1 sampleBike,
   (c10_unfavorite_target.2 sampleDB "bike" 1 sampleBike sampleBob rfl rfl).1⟩

theorem c3_ownership_guard :
    ∀ (db : DB) (slug : String) (uid : UserId) (b : ItemUpdate) (item : Item) (user : User),
      findItemBySlug db slug = some item → findUserById db uid = some user →
      ((item.seller ≠ uid →
          updateItemRoute (some uid) slug b db = (RouteResult.status 403, db) ∧
          deleteItemRoute (some uid) slug db = (RouteResult.status 403, db)) ∧
       (item.seller = uid →
          updateItemRoute (some uid) slug b db =
            (RouteResult.ok, saveItem db (applyItemUpdate item b)) ∧
          deleteItemRoute (some uid) slug db =
            (RouteResult.noContent, cascadeDeleteItem db item.id))) := by
  intro db slug uid b item user hI hU
  constructor
  · intro hs
    constructor
    · simp only [updateItemRoute, hI, authRequired]
      simp [hs]
    · simp only [deleteItemRoute, hI, authRequired, hU]
      simp [hs]
  · intro hs
    constructor
    · simp only [updateItemRoute, hI, authRequired]
      simp [hs]
    · simp only [deleteItemRoute, hI, authRequired, hU]
      simp [hs]

/-- Witness for C3: bob (not the seller) is refused with 403 on both update
and delete; alice (the seller) succeeds on both. -/
theorem c3_witness :
    updateItemRoute (some 1) "bike" noUpd sampleDB = (RouteResult.status 403, sampleDB) ∧
    deleteItemRoute (some 1) "bike" sampleDB = (RouteResult.status 403, sampleDB) ∧
    updateItemRoute (some 0) "bike" noUpd sampleDB =
      (RouteResult.ok, saveItem sampleDB (applyItemUpdate sampleBike noUpd)) ∧
    deleteItemRoute (some 0) "bike" sampleDB =
      (RouteResult.noContent, cascadeDeleteItem sampleDB sampleBike.id) :=
  ⟨((c3_ownership_guard sampleDB "bike" 1 noUpd sampleBike sampleBob rfl rfl).1 (by decide)).1,
   ((c3_ownership_guard sampleDB "bike" 1 noUpd sampleBike sampleBob rfl rfl).1 (by decide)).2,
   ((c3_ownership_guard sampleDB "bike" 0 noUpd sampleBike sampleAlice rfl rfl).2 rfl).1,
   ((c3_ownership_guard sampleDB "bike" 0 noUpd sampleBike sampleAlice rfl rfl).2 rfl).2⟩

theorem c2_cascade_delete :
    ∀ (db : DB) (slug : String) (uid : UserId) (item : Item) (user : User),
      findItemBySlug db slug = some item → findUserById db uid = some user →
      item.seller = uid →
      deleteItemRoute (some uid) slug db = (RouteResult.noContent, cascadeDeleteItem db item.id) ∧
      (∀ i ∈ (deleteItemRoute (some uid) slug db).2.items, i.id ≠ item.id) ∧
      (∀ c ∈ (deleteItemRoute (some uid) slug db).2.comments, c.item ≠ item.id) := by
  intro db slug uid item user hI hU hs
  have hroute : deleteItemRoute (some uid) slug db =
      (RouteResult.noContent, cascadeDeleteItem db item.id) := by
    simp only [deleteItemRoute, hI, authRequired, hU]
    simp [hs]
  refine ⟨hroute, ?_, ?_⟩
  · intro i hi
    rw [hroute] at hi
    have := (List.mem_filter.mp hi).2
    simpa using this
  · intro c hc
    rw [hroute] at hc
    have := (List.mem_filter.mp hc).2
    simpa using this

/-- Witness for C2 at a concrete store with one comment on the item. -/
theorem c2_witness :
    deleteItemRoute (some 0) "bike" sampleDB =
      (RouteResult.noContent, cascadeDeleteItem sampleDB sampleBike.id) ∧
    (∀ i ∈ (deleteItemRoute (some 0) "bike" sampleDB).2.items, i.id ≠ sampleBike.id) ∧
    (∀ c ∈ (deleteItemRoute (some 0) "bike" sampleDB).2.comments, c.item ≠ sampleBike.id) :=
  c2_cascade_delete sampleDB "bike" 0 sampleBike sampleAlice rfl rfl rfl

lemma freshCountAt_updateFavoriteCount (it : Item) (db : DB)
    (hm : ∃ j ∈ db.items, j.id = it.id) :
    FreshCountAt (it.updateFavoriteCount db).2 it.id := by
  obtain ⟨j, hj, hjid⟩ := hm
  constructor
  · refine ⟨{ it with favoritesCount := countFavoriters db it.id }, ?_, rfl⟩
    simp only [Item.updateFavoriteCount, saveItem]
    exact List.mem_map.mpr ⟨j, hj, by simp [hjid]⟩
  · intro i hi hiid
    simp only [Item.updateFavoriteCount, saveItem] at hi
    obtain ⟨k, _, hk⟩ := List.mem_map.mp hi
    by_cases hcase : (k.id == it.id) = true
    · simp only [hcase, if_true] at hk
      subst hk
      rfl
    · simp only [hcase, if_false] at hk
      subst hk
      exact absurd hiid (by simpa using hcase)

/-- C1: immediately after the favorite or unfavorite route completes (each
calls updateFavoriteCount after the toggle), the persisted favoritesCount of
the addressed item equals the number of Users whose favorites contain its
id, obtained by a fresh scan. -/
theorem c1_recompute_count :
    ∀ (db : DB) (slug : String) (uid : UserId) (item : Item) (user : User),
      findItemBySlug db slug = some item → findUserById db uid = some user →
      FreshCountAt (favoriteItemRoute (some uid) slug db).2 item.id ∧
      FreshCountAt (unfavoriteItemRoute (some uid) slug db).2 item.id := by
  intro db slug uid item user hI hU
  have hmem : item ∈ db.items := findItemBySlug_mem hI
  constructor
  · rw [favoriteItemRoute_eq hI hU]
    exact freshCountAt_updateFavoriteCount item _ ⟨item, by simpa using hmem, rfl⟩
  · rw [unfavoriteItemRoute_eq hI hU]
    exact freshCountAt_updateFavoriteCount item _ ⟨item, by simpa using hmem, rfl⟩

theorem c1_witness :
    FreshCountAt (favoriteItemRoute (some 1) "bike" sampleDB).2 sampleBike.id ∧
    FreshCountAt (unfavoriteItemRoute (some 1) "bike" sampleDB).2 sampleBike.id :=
  c1_recompute_count sampleDB "bike" 1 sampleBike sampleBob rfl rfl

/-- Unfolding of the item update route in the owner case. -/
lemma updateItemRoute_eq {db : DB} {slug : String} {uid : UserId} {b : ItemUpdate}
    {item : Item} (hI : findItemBySlug db slug = some item) (hs : item.seller = uid) :
    updateItemRoute (some uid) slug b db =
      (RouteResult.ok, saveItem db (applyItemUpdate item b)) := by
  simp only [updateItemRoute, hI, authRequired]
  simp [hs]

lemma updateUserRoute_eq {db : DB} {uid : UserId} {ub : UserUpdate} {user : User}
    (hU : findUserById db uid = some user)
    (hc : uniqueConflict db (applyUserUpdate user ub) = false) :
    updateUserRoute (some uid) ub db =
      (RouteResult.ok, saveUser db (applyUserUpdate user ub)) := by
  simp only [updateUserRoute, authRequired, hU]
  simp [hc]

/-- C9: the slug is generated exactly once, at creation, from the title, and
no later update changes it — lookups by the original slug still resolve to
the same item after a title change. -/
theorem c9_slug_stable :
    (∀ (db : DB) (uid : UserId) (ni : NewItem) (user : User),
      findUserById db uid = some user →
      db.items.any (fun i => i.slug == slugify ni.title) = false →
      (createItemRoute (some uid) ni db).2.items.map Item.slug =
        db.items.map Item.slug ++ [slugify ni.title]) ∧
    (∀ (db : DB) (slug : String) (uid : UserId) (b : ItemUpdate) (item : Item),
      findItemBySlug db slug = some item → item.seller = uid →
      findItemBySlug (updateItemRoute (some uid) slug b db).2 slug =
        some (applyItemUpdate item b) ∧
      (applyItemUpdate item b).slug = item.slug ∧
      (applyItemUpdate item b).id = item.id) := by
  constructor
  · intro db uid ni user hU hAny
    simp only [createItemRoute, authRequired, hU, hAny]
    simp
  · intro db slug uid b item hI hs
    refine ⟨?_, rfl, rfl⟩
    rw [updateItemRoute_eq hI hs]
    exact findItemBySlug_saveItem hI rfl rfl

theorem c9_witness :
    (createItemRoute (some 0) c9NewItem sampleDB).2.items.map Item.slug =
      sampleDB.items.map Item.slug ++ [slugify "Trike"] ∧
    findItemBySlug (updateItemRoute (some 0) "bike" c9Upd sampleDB).2 "bike" =
      some (applyItemUpdate sampleBike c9Upd) :=
  ⟨c9_slug_stable.1 sampleDB 0 c9NewItem sampleAlice rfl (by decide),
   (c9_slug_stable.2 sampleDB "bike" 0 c9Upd sampleBike rfl rfl).1⟩

/-- C8 (amended): updates are partial over the route's own field lists — for
an Item exactly the supplied ones among title, description, image, tagList
are modified (a supplied body is ignored), for a User exactly the supplied
ones among username, email, bio, image, password; every omitted field and
every field outside these lists keeps its prior value, and no other
collection is touched. -/
theorem c8_partial_update :
    (∀ (db : DB) (slug : String) (uid : UserId) (b : ItemUpdate) (item : Item),
      findItemBySlug db slug = some item → item.seller = uid →
      updateItemRoute (some uid) slug b db =
        (RouteResult.ok, saveItem db (applyItemUpdate item b)) ∧
      (updateItemRoute (some uid) slug b db).2.users = db.users ∧
      (updateItemRoute (some uid) slug b db).2.comments = db.comments ∧
      (applyItemUpdate item b).id = item.id ∧
      (applyItemUpdate item b).slug = item.slug ∧
      (applyItemUpdate item b).body = item.body ∧
      (applyItemUpdate item b).seller = item.seller ∧
      (applyItemUpdate item b).comments = item.comments ∧
      (applyItemUpdate item b).favoritesCount = item.favoritesCount ∧
      (b.title = none → (applyItemUpdate item b).title = item.title) ∧
      (∀ t, b.title = some t → (applyItemUpdate item b).title = t) ∧
      (b.description = none → (applyItemUpdate item b).description = item.description) ∧
      (∀ d, b.description = some d → (applyItemUpdate item b).description = some d) ∧
      (b.image = none → (applyItemUpdate item b).image = item.image) ∧
      (∀ s, b.image = some s → (applyItemUpdate item b).image = some s) ∧
      (b.tagList = none → (applyItemUpdate item b).tagList = item.tagList) ∧
      (∀ ts, b.tagList = some ts → (applyItemUpdate item b).tagList = ts)) ∧
    (∀ (db : DB) (uid : UserId) (ub : UserUpdate) (user : User),
      findUserById db uid = some user →
      uniqueConflict db (applyUserUpdate user ub) = false →
      updateUserRoute (some uid) ub db =
        (RouteResult.ok, saveUser db (applyUserUpdate user ub)) ∧
      (updateUserRoute (some uid) ub db).2.items = db.items ∧
      (updateUserRoute (some uid) ub db).2.comments = db.comments ∧
      (applyUserUpdate user ub).id = user.id ∧
      (applyUserUpdate user ub).favorites = user.favorites ∧
      (applyUserUpdate user ub).following = user.following ∧
      (ub.username = none → (applyUserUpdate user ub).username = user.username) ∧
      (∀ s, ub.username = some s → (applyUserUpdate user ub).username = s) ∧
      (ub.email = none → (applyUserUpdate user ub).email = user.email) ∧
      (∀ s, ub.email = some s → (applyUserUpdate user ub).email = s) ∧
      (ub.bio = none → (applyUserUpdate user ub).bio = user.bio) ∧
      (∀ s, ub.bio = some s → (applyUserUpdate user ub).bio = some s) ∧
      (ub.image = none → (applyUserUpdate user ub).image = user.image) ∧
      (∀ s, ub.image = some s → (applyUserUpdate user ub).image = some s) ∧
      (ub.password = none →
        (applyUserUpdate user ub).salt = user.salt ∧
        (applyUserUpdate user ub).hash = user.hash)) := by
  constructor
  · intro db slug uid b item hI hs
    refine ⟨updateItemRoute_eq hI hs, ?_, ?_, rfl, rfl, rfl, rfl, rfl, rfl,
      ?_, ?_, ?_, ?_, ?_, ?_, ?_, ?_⟩
    · rw [updateItemRoute_eq hI hs]
      rfl
    · rw [updateItemRoute_eq hI hs]
      rfl
    · intro ht; simp [applyItemUpdate, ht]
    · intro t ht; simp [applyItemUpdate, ht]
    · intro hd; simp [applyItemUpdate, hd]
    · intro d hd; simp [applyItemUpdate, hd]
    · intro him; simp [applyItemUpdate, him]
    · intro s him; simp [applyItemUpdate, him]
    · intro htl; simp [applyItemUpdate, htl]
    · intro ts htl; simp [applyItemUpdate, htl]
  · intro db uid ub user hU hc
    refine ⟨updateUserRoute_eq hU hc, ?_, ?_, ?_, ?_, ?_,
      ?_, ?_, ?_, ?_, ?_, ?_, ?_, ?_, ?_⟩
    · rw [updateUserRoute_eq hU hc]
      rfl
    · rw [updateUserRoute_eq hU hc]
      rfl
    · cases hp : ub.password <;> simp [applyUserUpdate, setPassword, hp]
    · cases hp : ub.password <;> simp [applyUserUpdate, setPassword, hp]
    · cases hp : ub.password <;> simp [applyUserUpdate, setPassword, hp]
    · intro h; cases hp : ub.password <;> simp [applyUserUpdate, setPassword, hp, h]
    · intro s h; cases hp : ub.password <;> simp [applyUserUpdate, setPassword, hp, h]
    · intro h; cases hp : ub.password <;> simp [applyUserUpdate, setPassword, hp, h]
    · intro s h; cases hp : ub.password <;> simp [applyUserUpdate, setPassword, hp, h]
    · intro h; cases hp : ub.password <;> simp [applyUserUpdate, setPassword, hp, h]
    · intro s h; cases hp : ub.password <;> simp [applyUserUpdate, setPassword, hp, h]
    · intro h; cases hp : ub.password <;> simp [applyUserUpdate, setPassword, hp, h]
    · intro s h; cases hp : ub.password <;> simp [applyUserUpdate, setPassword, hp, h]
    · intro hp; simp [applyUserUpdate, hp]

theorem c8_witness :
    updateItemRoute (some 0) "bike" c8ItemUpd sampleDB =
      (RouteResult.ok, saveItem sampleDB (applyItemUpdate sampleBike c8ItemUpd)) ∧
    updateUserRoute (some 0) c8UserUpd sampleDB =
      (RouteResult.ok, saveUser sampleDB (applyUserUpdate sampleAlice c8UserUpd)) :=
  ⟨(c8_partial_update.1 sampleDB "bike" 0 c8ItemUpd sampleBike rfl rfl).1,
   (c8_partial_update.2 sampleDB 0 c8UserUpd sampleAlice rfl (by decide)).1⟩

theorem c8_counterexample :
    sampleBike.body = some "old" ∧ c8BodyUpd.body = some "new" ∧
    (updateItemRoute (some 0) "bike" c8BodyUpd sampleDB).1 = RouteResult.ok ∧
    ((updateItemRoute (some 0) "bike" c8BodyUpd sampleDB).2.items.map Item.body) = [some "old"] := by
  decide

/-- C4 (amended): every mutating operation reached through an auth.required
route rejects a caller with no identity (401, store unchanged; 404 when the
preloaded resource is already missing); but the generic comment create,
update and delete routes of comments.js carry no authentication check at all
and perform their mutation regardless of identity. -/
theorem c4_unauthenticated_rejected :
    (∀ (db : DB) (b : UserUpdate), updateUserRoute none b db = (RouteResult.status 401, db)) ∧
    (∀ (db : DB) (ni : NewItem), createItemRoute none ni db = (RouteResult.status 401, db)) ∧
    (∀ (db : DB) (slug : String) (b : ItemUpdate),
      (updateItemRoute none slug b db).2 = db ∧
      ((updateItemRoute none slug b db).1 = RouteResult.status 401 ∨
       (updateItemRoute none slug b db).1 = RouteResult.status 404)) ∧
    (∀ (db : DB) (slug : String),
      (deleteItemRoute none slug db).2 = db ∧
      ((deleteItemRoute none slug db).1 = RouteResult.status 401 ∨
       (deleteItemRoute none slug db).1 = RouteResult.status 404)) ∧
    (∀ (db : DB) (slug : String),
      (favoriteItemRoute none slug db).2 = db ∧
      ((favoriteItemRoute none slug db).1 = RouteResult.status 401 ∨
       (favoriteItemRoute none slug db).1 = RouteResult.status 404)) ∧
    (∀ (db : DB) (slug : String),
      (unfavoriteItemRoute none slug db).2 = db ∧
      ((unfavoriteItemRoute none slug db).1 = RouteResult.status 401 ∨
       (unfavoriteItemRoute none slug db).1 = RouteResult.status 404)) ∧
    (∀ (db : DB) (name : String),
      (followProfileRoute none name db).2 = db ∧
      ((followProfileRoute none name db).1 = RouteResult.status 401 ∨
       (followProfileRoute none name db).1 = RouteResult.status 404)) ∧
    (∀ (db : DB) (name : String),
      (unfollowProfileRoute none name db).2 = db ∧
      ((unfollowProfileRoute none name db).1 = RouteResult.status 401 ∨
       (unfollowProfileRoute none name db).1 = RouteResult.status 404)) ∧
    (∀ (db : DB) (slug : String) (cbody : String),
      (createItemCommentRoute none slug cbody db).2 = db ∧
      ((createItemCommentRoute none slug cbody db).1 = RouteResult.status 401 ∨
       (createItemCommentRoute none slug cbody db).1 = RouteResult.status 404)) ∧
    (∀ (db : DB) (slug : String) (cid : CommentId),
      (deleteItemCommentRoute none slug cid db).2 = db ∧
      ((deleteItemCommentRoute none slug cid db).1 = RouteResult.status 401 ∨
       (deleteItemCommentRoute none slug cid db).1 = RouteResult.status 404)) ∧
    (∀ (db : DB) (bd : String) (s : UserId) (i : ItemId),
      (commentsCreateRoute { body := some bd, seller := some s, item := some i } db).1 =
        RouteResult.created ∧
      (commentsCreateRoute { body := some bd, seller := some s, item := some i } db).2.comments.length =
        db.comments.length + 1) := by
  refine ⟨?_, ?_, ?_, ?_, ?_, ?_, ?_, ?_, ?_, ?_, ?_⟩
  · intro db b; rfl
  · intro db ni; rfl
  · intro db slug b
    unfold updateItemRoute
    cases hI : findItemBySlug db slug <;> simp [authRequired]
  · intro db slug
    unfold deleteItemRoute
    cases hI : findItemBySlug db slug <;> simp [authRequired]
  · intro db slug
    unfold favoriteItemRoute
    cases hI : findItemBySlug db slug <;> simp [authRequired]
  · intro db slug
    unfold unfavoriteItemRoute
    cases hI : findItemBySlug db slug <;> simp [authRequired]
  · intro db name
    unfold followProfileRoute
    cases hP : findUserByUsername db name <;> simp [authRequired]
  · intro db name
    unfold unfollowProfileRoute
    cases hP : findUserByUsername db name <;> simp [authRequired]
  · intro db slug cbody
    unfold createItemCommentRoute
    cases hI : findItemBySlug db slug <;> simp [authRequired]
  · intro db slug cid
    unfold deleteItemCommentRoute
    cases hI : findItemBySlug db slug
    · simp
    · cases hC : findCommentById db cid <;> simp [authRequired]
  · intro db bd s i
    simp [commentsCreateRoute]

theorem c4_counterexample :
    (commentsCreateRoute { body := some "hi", seller := some 7, item := some 9 } emptyDB).1 =
      RouteResult.created ∧
    (commentsCreateRoute { body := some "hi", seller := some 7, item := some 9 } emptyDB).2 ≠
      emptyDB ∧
    (commentsUpdateRoute 0 { body := some "x", seller := none, item := none }
      { users := [], items := [],
        comments := [{ id := 0, body := "b", seller := 1, item := 2 }], nextId := 3 }).2 ≠
      { users := [], items := [],
        comments := [{ id := 0, body := "b", seller := 1, item := 2 }], nextId := 3 } ∧
    (commentsDeleteRoute 0
      { users := [], items := [],
        comments := [{ id := 0, body := "b", seller := 1, item := 2 }], nextId := 3 }).2 ≠
      { users := [], items := [],
        comments := [{ id := 0, body := "b", seller := 1, item := 2 }], nextId := 3 } := by
  decide

lemma map_id_of_fix {α : Type} (l : List α) (f : α → α) (h : ∀ a ∈ l, f a = a) :
    l.map f = l := by
  induction l with
  | nil => rfl
  | cons a t ih =>
    simp only [List.map_cons, h a (List.mem_cons_self a t)]
    rw [ih (fun b hb => h b (List.mem_cons_of_mem a hb))]

lemma DBext {a b : DB} (h1 : a.users = b.users) (h2 : a.items = b.items)
    (h3 : a.comments = b.comments) (h4 : a.nextId = b.nextId) : a = b := by
  cases a; cases b; simp_all

lemma map_replace_idem {α : Type} (key : α → Nat) (y : α) (l : List α) :
    (l.map (fun a => if key a == key y then y else a)).map
        (fun a => if key a == key y then y else a) =
      l.map (fun a => if key a == key y then y else a) := by
  apply map_id_of_fix
  intro a ha
  obtain ⟨w, _, rfl⟩ := List.mem_map.mp ha
  by_cases hc : (key w == key y) = true
  · simp [hc]
  · simp only [hc, if_false]
    simp [hc]

lemma map_replace_collapse {α : Type} (key : α → Nat) (l : List α) (x y : α)
    (hn : (l.map key).Nodup) (hx : x ∈ l) (hkey : key y = key x) :
    (l.map (fun a => if key a == key y then y else a)).map
        (fun a => if key a == key x then x else a) = l := by
  rw [List.map_map]
  apply map_id_of_fix
  intro a ha
  simp only [Function.comp_apply]
  by_cases hc : (key a == key y) = true
  · have hax : a = x := by
      apply eq_of_nodup_key key l hn x a hx ha
      have h1 : key a = key y := by simpa using hc
      rw [h1, hkey]
    have h2 : (key y == key x) = true := by simp [hkey]
    rw [if_pos hc, if_pos h2]
    exact hax.symm
  · rw [if_neg hc]
    have hc2 : ¬ (key a == key x) = true := by
      intro h
      apply hc
      have h3 : key a = key x := by simpa using h
      simp [h3, hkey]
    rw [if_neg hc2]

lemma favorite_id (u : User) (i : ItemId) : (u.favorite i).id = u.id := by
  unfold User.favorite
  split <;> rfl

lemma mem_favorite (u : User) (i : ItemId) : i ∈ (u.favorite i).favorites := by
  unfold User.favorite
  split
  · assumption
  · exact List.mem_append_right _ (List.mem_singleton_self i)

lemma favorite_mem_noop {u : User} {i : ItemId} (h : i ∈ u.favorites) : u.favorite i = u := by
  unfold User.favorite
  rw [if_pos h]

lemma unfavorite_favorite {u : User} {i : ItemId} (h : i ∉ u.favorites) :
    (u.favorite i).unfavorite i = u := by
  unfold User.favorite User.unfavorite
  rw [if_neg h]
  simp only [List.filter_append]
  have h1 : u.favorites.filter (fun x => x != i) = u.favorites := by
    apply List.filter_eq_self.mpr
    intro a ha
    simp only [bne_iff_ne, ne_eq, decide_eq_true_eq]
    intro he
    exact h (he ▸ ha)
  rw [h1]
  simp

lemma countFavoriters_users_eq {a b : DB} (h : a.users = b.users) (i : ItemId) :
    countFavoriters a i = countFavoriters b i := by
  unfold countFavoriters
  rw [h]

lemma c5_partA (db : DB) (slug : String) (uid : UserId) (item : Item) (user : User)
    (hI : findItemBySlug db slug = some item) (hU : findUserById db uid = some user) :
    favoriteItemRoute (some uid) slug ((favoriteItemRoute (some uid) slug db).2) =
      (RouteResult.ok, (favoriteItemRoute (some uid) slug db).2) := by
  have hD : (favoriteItemRoute (some uid) slug db).2 =
      (item.updateFavoriteCount (saveUser db (user.favorite item.id))).2 := by
    rw [favoriteItemRoute_eq hI hU]
  have hI2 : findItemBySlug (favoriteItemRoute (some uid) slug db).2 slug =
      some { item with favoritesCount := countFavoriters (saveUser db (user.favorite item.id)) item.id } := by
    rw [hD]
    exact findItemBySlug_saveItem (hI) rfl rfl
  have hU2 : findUserById (favoriteItemRoute (some uid) slug db).2 uid =
      some (user.favorite item.id) := by
    rw [hD]
    exact findUserById_saveUser hU (favorite_id user item.id)
  rw [favoriteItemRoute_eq hI2 hU2]
  congr 1
  -- second favorite is a no-op on the user
  rw [favorite_mem_noop (mem_favorite user item.id)]
  -- the save of the unchanged user is the identity on the state
  have hsu : saveUser (favoriteItemRoute (some uid) slug db).2 (user.favorite item.id) =
      (favoriteItemRoute (some uid) slug db).2 := by
    apply DBext
    · rw [hD]
      exact map_replace_idem User.id (user.favorite item.id) db.users
    · rfl
    · rfl
    · rfl
  rw [hsu]
  -- recount writes back the same count, and the item save is idempotent
  apply DBext
  · rfl
  · rw [hD]
    exact map_replace_idem Item.id
      { item with favoritesCount := countFavoriters (saveUser db (user.favorite item.id)) item.id }
      db.items
  · rfl
  · rfl
lemma items_roundtrip (it2 : Item) {Y db0 : DB} {item it3 : Item}
    (hY : Y.items = db0.items.map (fun j => if j.id == it2.id then it2 else j))
    (hit3 : it3 = item) (hid2 : it2.id = item.id)
    (hn : (db0.items.map Item.id).Nodup) (hx : item ∈ db0.items) :
    (saveItem Y it3).items = db0.items := by
  show Y.items.map (fun j => if j.id == it3.id then it3 else j) = db0.items
  rw [hY, hit3]
  exact map_replace_collapse Item.id db0.items item it2 hn hx hid2

lemma c5_partB (db : DB) (slug : String) (uid : UserId) (item : Item) (user : User)
    (hI : findItemBySlug db slug = some item) (hU : findUserById db uid = some user)
    (hnf : item.id ∉ user.favorites)
    (hcnt : item.favoritesCount = countFavoriters db item.id)
    (hnu : (db.users.map User.id).Nodup) (hni : (db.items.map Item.id).Nodup) :
    (unfavoriteItemRoute (some uid) slug ((favoriteItemRoute (some uid) slug db).2)).2 = db := by
  have hD : (favoriteItemRoute (some uid) slug db).2 =
      (item.updateFavoriteCount (saveUser db (user.favorite item.id))).2 := by
    rw [favoriteItemRoute_eq hI hU]
  have hI2 : findItemBySlug (favoriteItemRoute (some uid) slug db).2 slug =
      some { item with favoritesCount := countFavoriters (saveUser db (user.favorite item.id)) item.id } := by
    rw [hD]
    exact findItemBySlug_saveItem hI rfl rfl
  have hU2 : findUserById (favoriteItemRoute (some uid) slug db).2 uid =
      some (user.favorite item.id) := by
    rw [hD]
    exact findUserById_saveUser hU (favorite_id user item.id)
  have hu3 : (user.favorite item.id).unfavorite
      (({ item with favoritesCount := countFavoriters (saveUser db (user.favorite item.id)) item.id } : Item).id)
      = user := unfavorite_favorite hnf
  rw [unfavoriteItemRoute_eq hI2 hU2, hu3, hD]
  have husers : (saveUser ((item.updateFavoriteCount (saveUser db (user.favorite item.id))).2) user).users
      = db.users :=
    map_replace_collapse User.id db.users user (user.favorite item.id) hnu
      (findUserById_mem hU) (favorite_id user item.id)
  apply DBext
  · exact husers
  · apply items_roundtrip
      { item with favoritesCount := countFavoriters (saveUser db (user.favorite item.id)) item.id }
    · rfl
    · show { item with favoritesCount :=
          countFavoriters (saveUser ((item.updateFavoriteCount (saveUser db (user.favorite item.id))).2) user) item.id }
        = item
      have hcY : countFavoriters
          (saveUser ((item.updateFavoriteCount (saveUser db (user.favorite item.id))).2) user) item.id
          = countFavoriters db item.id := countFavoriters_users_eq husers item.id
      rw [hcY, ← hcnt]
    · rfl
    · exact hni
    · exact findItemBySlug_mem hI
  · rfl
  · rfl

/-- C5 (amended): favoriting twice leaves the store exactly as after one
favorite; and a favorite followed by an unfavorite by the same user restores
the pre-state, provided the user had not already favorited the item and the
item's stored count was consistent beforehand (and ids are duplicate-free). -/
theorem c5_toggle_roundtrip :
    (∀ (db : DB) (slug : String) (uid : UserId) (item : Item) (user : User),
      findItemBySlug db slug = some item → findUserById db uid = some user →
      favoriteItemRoute (some uid) slug ((favoriteItemRoute (some uid) slug db).2) =
        (RouteResult.ok, (favoriteItemRoute (some uid) slug db).2)) ∧
    (∀ (db : DB) (slug : String) (uid : UserId) (item : Item) (user : User),
      findItemBySlug db slug = some item → findUserById db uid = some user →
      item.id ∉ user.favorites →
      item.favoritesCount = countFavoriters db item.id →
      (db.users.map User.id).Nodup → (db.items.map Item.id).Nodup →
      (unfavoriteItemRoute (some uid) slug ((favoriteItemRoute (some uid) slug db).2)).2 = db) :=
  ⟨c5_partA, c5_partB⟩

/-- Witness for C5: bob favorites the bike twice (second call changes
nothing), and favorite-then-unfavorite restores the sample store exactly. -/
theorem c5_witness :
    favoriteItemRoute (some 1) "bike" ((favoriteItemRoute (some 1) "bike" sampleDB).2) =
      (RouteResult.ok, (favoriteItemRoute (some 1) "bike" sampleDB).2) ∧
    (unfavoriteItemRoute (some 1) "bike" ((favoriteItemRoute (some 1) "bike" sampleDB).2)).2 =
      sampleDB :=
  ⟨c5_toggle_roundtrip.1 sampleDB "bike" 1 sampleBike sampleBob rfl rfl,
   c5_toggle_roundtrip.2 sampleDB "bike" 1 sampleBike sampleBob rfl rfl (by decide)
     (by decide) (by decide) (by decide)⟩

/-- Counterexample for C5 as stated: when bob has already favorited the bike,
favorite (a no-op) followed by unfavorite removes the favorite instead of
restoring the state that held before both calls. -/
theorem c5_counterexample :
    (unfavoriteItemRoute (some 1) "bike" ((favoriteItemRoute (some 1) "bike" c5AlreadyFav).2)).2 ≠
      c5AlreadyFav := by
  decide

lemma favorite_following (u : User) (i : ItemId) : (u.favorite i).following = u.following := by
  unfold User.favorite
  split <;> rfl

lemma nsf_saveUser {db : DB} {u : User} (h : NoSelfFollow db) (hu : u.id ∉ u.following) :
    NoSelfFollow (saveUser db u) := by
  intro v hv
  obtain ⟨w, hw, rfl⟩ := List.mem_map.mp hv
  by_cases hc : (w.id == u.id) = true
  · simpa [hc] using hu
  · simpa [hc] using h w hw

lemma nsf_users_eq {a b : DB} (hab : a.users = b.users) (h : NoSelfFollow b) :
    NoSelfFollow a := by
  intro v hv
  exact h v (hab ▸ hv)

lemma follow_self_not_mem {u u2 : User} {t : UserId} (hf : u.follow t = some u2)
    (hself : u.id ∉ u.following) : u2.id ∉ u2.following := by
  unfold User.follow at hf
  by_cases h1 : (u.id == t) = true
  · rw [if_pos h1] at hf
    cases hf
  · rw [if_neg h1] at hf
    by_cases h2 : t ∈ u.following
    · rw [if_pos h2] at hf
      injection hf with hf
      subst hf
      exact hself
    · rw [if_neg h2] at hf
      injection hf with hf
      subst hf
      intro hmem
      rcases List.mem_append.mp hmem with h3 | h3
      · exact hself h3
      · have h4 : u.id = t := by simpa using h3
        exact absurd h4 (by simpa using h1)

lemma unfollow_self_not_mem {u u2 : User} {t : UserId} (hf : u.unfollow t = some u2)
    (hself : u.id ∉ u.following) : u2.id ∉ u2.following := by
  unfold User.unfollow at hf
  by_cases h1 : (u.id == t) = true
  · rw [if_pos h1] at hf
    cases hf
  · rw [if_neg h1] at hf
    injection hf with hf
    subst hf
    intro hmem
    exact hself (List.mem_filter.mp hmem).1

lemma applyUserUpdate_id (u : User) (b : UserUpdate) : (applyUserUpdate u b).id = u.id := by
  cases hp : b.password <;> simp [applyUserUpdate, setPassword, hp]

lemma applyUserUpdate_following (u : User) (b : UserUpdate) :
    (applyUserUpdate u b).following = u.following := by
  cases hp : b.password <;> simp [applyUserUpdate, setPassword, hp]

lemma unfavorite_id (u : User) (i : ItemId) : (u.unfavorite i).id = u.id := rfl

lemma unfavorite_following (u : User) (i : ItemId) :
    (u.unfavorite i).following = u.following := rfl

lemma follow_characterize {user u2 : User} {t : UserId} (hF : user.follow t = some u2) :
    u2.id = user.id ∧
    (u2.following = user.following ∨
      (¬ t = user.id ∧ u2.following = user.following ++ [t])) := by
  unfold User.follow at hF
  by_cases h1 : (user.id == t) = true
  · rw [if_pos h1] at hF
    cases hF
  · rw [if_neg h1] at hF
    by_cases h2 : t ∈ user.following
    · rw [if_pos h2] at hF
      injection hF with hF
      subst hF
      exact ⟨rfl, Or.inl rfl⟩
    · rw [if_neg h2] at hF
      injection hF with hF
      subst hF
      refine ⟨rfl, Or.inr ⟨?_, rfl⟩⟩
      intro he
      apply h1
      simp [he]

lemma unfollow_characterize {user u2 : User} {t : UserId} (hF : user.unfollow t = some u2) :
    u2.id = user.id ∧ ∀ x ∈ u2.following, x ∈ user.following := by
  unfold User.unfollow at hF
  by_cases h1 : (user.id == t) = true
  · rw [if_pos h1] at hF
    cases hF
  · rw [if_neg h1] at hF
    injection hF with hF
    subst hF
    exact ⟨rfl, fun x hx => (List.mem_filter.mp hx).1⟩

lemma registerRoute_state (nu : NewUser) (db : DB) :
    (registerRoute nu db).2 = db ∨
    ∃ u : User, u.favorites = [] ∧ u.following = [] ∧
      (registerRoute nu db).2 =
        { db with users := db.users ++ [u], nextId := db.nextId + 1 } := by
  unfold registerRoute
  split
  · left
    rfl
  · right
    exact ⟨_, rfl, rfl, rfl⟩

lemma updateUserRoute_state (p : Option UserId) (b : UserUpdate) (db : DB) :
    (updateUserRoute p b db).2 = db ∨
    ∃ uid user, findUserById db uid = some user ∧
      (updateUserRoute p b db).2 = saveUser db (applyUserUpdate user b) := by
  cases p with
  | none => left; rfl
  | some uid =>
    cases hU : findUserById db uid with
    | none => left; simp [updateUserRoute, authRequired, hU]
    | some user =>
      by_cases hconf : uniqueConflict db (applyUserUpdate user b) = true
      · left
        simp [updateUserRoute, authRequired, hU, hconf]
      · right
        refine ⟨uid, user, hU, ?_⟩
        simp [updateUserRoute, authRequired, hU, hconf]

lemma followProfileRoute_state (p : Option UserId) (name : String) (db : DB) :
    (followProfileRoute p name db).2 = db ∨
    ∃ user u2, user ∈ db.users ∧ u2.id = user.id ∧
      (u2.following = user.following ∨
        ∃ t, ¬ t = user.id ∧ u2.following = user.following ++ [t]) ∧
      (followProfileRoute p name db).2 = saveUser db u2 := by
  cases hP : findUserByUsername db name with
  | none => left; simp [followProfileRoute, hP]
  | some profile =>
    cases p with
    | none => left; simp [followProfileRoute, hP, authRequired]
    | some uid =>
      cases hU : findUserById db uid with
      | none => left; simp [followProfileRoute, hP, authRequired, hU]
      | some user =>
        cases hF : user.follow profile.id with
        | none => left; simp [followProfileRoute, hP, authRequired, hU, hF]
        | some u2 =>
          right
          obtain ⟨hid, hfol⟩ := follow_characterize hF
          refine ⟨user, u2, findUserById_mem hU, hid, ?_,
            by simp [followProfileRoute, hP, authRequired, hU, hF]⟩
          rcases hfol with hfol | ⟨ht, hfol⟩
          · exact Or.inl hfol
          · exact Or.inr ⟨profile.id, ht, hfol⟩

lemma unfollowProfileRoute_state (p : Option UserId) (name : String) (db : DB) :
    (unfollowProfileRoute p name db).2 = db ∨
    ∃ user u2, user ∈ db.users ∧ u2.id = user.id ∧
      (∀ x ∈ u2.following, x ∈ user.following) ∧
      (unfollowProfileRoute p name db).2 = saveUser db u2 := by
  cases hP : findUserByUsername db name with
  | none => left; simp [unfollowProfileRoute, hP]
  | some profile =>
    cases p with
    | none => left; simp [unfollowProfileRoute, hP, authRequired]
    | some uid =>
      cases hU : findUserById db uid with
      | none => left; simp [unfollowProfileRoute, hP, authRequired, hU]
      | some user =>
        cases hF : user.unfollow profile.id with
        | none => left; simp [unfollowProfileRoute, hP, authRequired, hU, hF]
        | some u2 =>
          right
          obtain ⟨hid, hfol⟩ := unfollow_characterize hF
          exact ⟨user, u2, findUserById_mem hU, hid, hfol,
            by simp [unfollowProfileRoute, hP, authRequired, hU, hF]⟩

lemma favoriteItemRoute_state (p : Option UserId) (slug : String) (db : DB) :
    (favoriteItemRoute p slug db).2 = db ∨
    ∃ user u2 item it2, user ∈ db.users ∧ u2.id = user.id ∧
      u2.following = user.following ∧
      item ∈ db.items ∧ it2.id = item.id ∧ it2.comments = item.comments ∧
      (favoriteItemRoute p slug db).2 = saveItem (saveUser db u2) it2 := by
  cases hI : findItemBySlug db slug with
  | none => left; simp [favoriteItemRoute, hI]
  | some item =>
    cases p with
    | none => left; simp [favoriteItemRoute, hI, authRequired]
    | some uid =>
      cases hU : findUserById db uid with
      | none => left; simp [favoriteItemRoute, hI, authRequired, hU]
      | some user =>
        right
        refine ⟨user, user.favorite item.id, item, { item with favoritesCount := countFavoriters (saveUser db (user.favorite item.id)) item.id }, findUserById_mem hU, favorite_id user item.id, favorite_following user item.id, findItemBySlug_mem hI, rfl, rfl, ?_⟩
        simp [favoriteItemRoute, hI, authRequired, hU, Item.updateFavoriteCount]

lemma unfavoriteItemRoute_state (p : Option UserId) (slug : String) (db : DB) :
    (unfavoriteItemRoute p slug db).2 = db ∨
    ∃ user u2 item it2, user ∈ db.users ∧ u2.id = user.id ∧
      u2.following = user.following ∧
      item ∈ db.items ∧ it2.id = item.id ∧ it2.comments = item.comments ∧
      (unfavoriteItemRoute p slug db).2 = saveItem (saveUser db u2) it2 := by
  cases hI : findItemBySlug db slug with
  | none => left; simp [unfavoriteItemRoute, hI]
  | some item =>
    cases p with
    | none => left; simp [unfavoriteItemRoute, hI, authRequired]
    | some uid =>
      cases hU : findUserById db uid with
      | none => left; simp [unfavoriteItemRoute, hI, authRequired, hU]
      | some user =>
        right
        refine ⟨user, user.unfavorite (unfavTargetId item), item, { item with favoritesCount := countFavoriters (saveUser db (user.unfavorite (unfavTargetId item))) item.id }, findUserById_mem hU, rfl, rfl, findItemBySlug_mem hI, rfl, rfl, ?_⟩
        simp [unfavoriteItemRoute, hI, authRequired, hU, Item.updateFavoriteCount]

lemma createItemRoute_state (p : Option UserId) (ni : NewItem) (db : DB) :
    (createItemRoute p ni db).2 = db ∨
    ∃ it : Item, it.id = db.nextId ∧ it.comments = [] ∧
      (createItemRoute p ni db).2 =
        { db with items := db.items ++ [it], nextId := db.nextId + 1 } := by
  cases p with
  | none => left; rfl
  | some uid =>
    cases hU : findUserById db uid with
    | none => left; simp [createItemRoute, authRequired, hU]
    | some user =>
      by_cases hc : (db.items.any fun i => i.slug == slugify ni.title) = true
      · left
        simp [createItemRoute, authRequired, hU, hc]
      · right
        refine ⟨{ id := db.nextId, slug := slugify ni.title, title := ni.title, description := ni.description, body := ni.body, image := ni.image, tagList := ni.tagList, seller := uid, comments := [], favoritesCount := 0 }, rfl, rfl, ?_⟩
        simp [createItemRoute, authRequired, hU, hc]

lemma updateItemRoute_state (p : Option UserId) (slug : String) (b : ItemUpdate) (db : DB) :
    (updateItemRoute p slug b db).2 = db ∨
    ∃ item it2, item ∈ db.items ∧ it2.id = item.id ∧ it2.comments = item.comments ∧
      (updateItemRoute p slug b db).2 = saveItem db it2 := by
  cases hI : findItemBySlug db slug with
  | none => left; simp [updateItemRoute, hI]
  | some item =>
    cases p with
    | none => left; simp [updateItemRoute, hI, authRequired]
    | some uid =>
      by_cases hs : (item.seller != uid) = true
      · left
        simp [updateItemRoute, hI, authRequired, hs]
      · right
        exact ⟨item, applyItemUpdate item b, findItemBySlug_mem hI, rfl, rfl,
          by simp [updateItemRoute, hI, authRequired, hs]⟩

lemma deleteItemRoute_state (p : Option UserId) (slug : String) (db : DB) :
    (deleteItemRoute p slug db).2 = db ∨
    ∃ iid, (deleteItemRoute p slug db).2 = cascadeDeleteItem db iid := by
  cases hI : findItemBySlug db slug with
  | none => left; simp [deleteItemRoute, hI]
  | some item =>
    cases p with
    | none => left; simp [deleteItemRoute, hI, authRequired]
    | some uid =>
      cases hU : findUserById db uid with
      | none => left; simp [deleteItemRoute, hI, authRequired, hU]
      | some user =>
        by_cases hs : (item.seller == uid) = true
        · right
          exact ⟨item.id, by simp [deleteItemRoute, hI, authRequired, hU, hs]⟩
        · left
          simp [deleteItemRoute, hI, authRequired, hU, hs]

lemma createItemCommentRoute_state (p : Option UserId) (slug : String) (cbody : String)
    (db : DB) :
    (createItemCommentRoute p slug cbody db).2 = db ∨
    ∃ (item : Item) (c : Comment) (it2 : Item), item ∈ db.items ∧ c.id = db.nextId ∧ c.item = item.id ∧
      it2.id = item.id ∧ it2.comments = item.comments ++ [c.id] ∧
      (createItemCommentRoute p slug cbody db).2 =
        saveItem { db with comments := db.comments ++ [c], nextId := db.nextId + 1 } it2 := by
  cases hI : findItemBySlug db slug with
  | none => left; simp [createItemCommentRoute, hI]
  | some item =>
    cases p with
    | none => left; simp [createItemCommentRoute, hI, authRequired]
    | some uid =>
      cases hU : findUserById db uid with
      | none => left; simp [createItemCommentRoute, hI, authRequired, hU]
      | some user =>
        right
        refine ⟨item, { id := db.nextId, body := cbody, seller := uid, item := item.id }, { item with comments := item.comments ++ [db.nextId] }, findItemBySlug_mem hI, rfl, rfl, rfl, rfl, ?_⟩
        simp [createItemCommentRoute, hI, authRequired, hU]

lemma deleteItemCommentRoute_state (p : Option UserId) (slug : String) (cid : CommentId)
    (db : DB) :
    (deleteItemCommentRoute p slug cid db).2 = db ∨
    ∃ item comment it2, findItemBySlug db slug = some item ∧
      findCommentById db cid = some comment ∧
      it2.id = item.id ∧ it2.comments = item.comments.filter (fun d => d != comment.id) ∧
      (deleteItemCommentRoute p slug cid db).2 =
        { saveItem db it2 with
          comments := db.comments.filter (fun c2 => c2.id != comment.id) } := by
  cases hI : findItemBySlug db slug with
  | none => left; simp [deleteItemCommentRoute, hI]
  | some item =>
    cases hC : findCommentById db cid with
    | none => left; simp [deleteItemCommentRoute, hI, hC]
    | some comment =>
      cases p with
      | none => left; simp [deleteItemCommentRoute, hI, hC, authRequired]
      | some uid =>
        right
        refine ⟨item, comment, { item with comments := item.comments.filter (fun d => d != comment.id) }, rfl, rfl, rfl, rfl, ?_⟩
        simp [deleteItemCommentRoute, hI, hC, authRequired, saveItem]

lemma users_commentsCreateRoute (cb : CommentBody) (db : DB) :
    (commentsCreateRoute cb db).2.users = db.users := by
  obtain ⟨cbb, cbs, cbi⟩ := cb
  cases cbb <;> cases cbs <;> cases cbi <;> rfl

lemma users_commentsUpdateRoute (cid : CommentId) (cb : CommentBody) (db : DB) :
    (commentsUpdateRoute cid cb db).2.users = db.users := by
  cases hC : findCommentById db cid with
  | none => simp [commentsUpdateRoute, hC]
  | some c => simp [commentsUpdateRoute, hC, saveComment]

lemma users_commentsDeleteRoute (cid : CommentId) (db : DB) :
    (commentsDeleteRoute cid db).2.users = db.users := by
  cases hC : findCommentById db cid with
  | none => simp [commentsDeleteRoute, hC]
  | some c => simp [commentsDeleteRoute, hC]

lemma nsf_step (op : Op) (db : DB) (h : NoSelfFollow db) : NoSelfFollow (applyOp op db) := by
  cases op with
  | register nu =>
    show NoSelfFollow (registerRoute nu db).2
    rcases registerRoute_state nu db with he | ⟨u, _, hfol, he⟩
    · rw [he]; exact h
    · rw [he]
      intro v hv
      rcases List.mem_append.mp hv with hv2 | hv2
      · exact h v hv2
      · have hveq := List.mem_singleton.mp hv2
        subst hveq
        rw [hfol]
        exact List.not_mem_nil v.id
  | updateUser p b =>
    show NoSelfFollow (updateUserRoute p b db).2
    rcases updateUserRoute_state p b db with he | ⟨uid, user, hU, he⟩
    · rw [he]; exact h
    · rw [he]
      exact nsf_saveUser h (by
        rw [applyUserUpdate_following, applyUserUpdate_id]
        exact h user (findUserById_mem hU))
  | createItem p ni =>
    show NoSelfFollow (createItemRoute p ni db).2
    rcases createItemRoute_state p ni db with he | ⟨it, _, _, he⟩
    · rw [he]; exact h
    · rw [he]; exact h
  | updateItem p slug b =>
    show NoSelfFollow (updateItemRoute p slug b db).2
    rcases updateItemRoute_state p slug b db with he | ⟨item, it2, _, _, _, he⟩
    · rw [he]; exact h
    · rw [he]; exact nsf_users_eq rfl h
  | deleteItem p slug =>
    show NoSelfFollow (deleteItemRoute p slug db).2
    rcases deleteItemRoute_state p slug db with he | ⟨iid, he⟩
    · rw [he]; exact h
    · rw [he]; exact nsf_users_eq rfl h
  | favorite p slug =>
    show NoSelfFollow (favoriteItemRoute p slug db).2
    rcases favoriteItemRoute_state p slug db with he | ⟨user, u2, item, it2, hmem, hid, hfol, _, _, _, he⟩
    · rw [he]; exact h
    · rw [he]
      exact nsf_users_eq rfl (nsf_saveUser h (by rw [hfol, hid]; exact h user hmem))
  | unfavorite p slug =>
    show NoSelfFollow (unfavoriteItemRoute p slug db).2
    rcases unfavoriteItemRoute_state p slug db with he | ⟨user, u2, item, it2, hmem, hid, hfol, _, _, _, he⟩
    · rw [he]; exact h
    · rw [he]
      exact nsf_users_eq rfl (nsf_saveUser h (by rw [hfol, hid]; exact h user hmem))
  | follow p name =>
    show NoSelfFollow (followProfileRoute p name db).2
    rcases followProfileRoute_state p name db with he | ⟨user, u2, hmem, hid, hfol, he⟩
    · rw [he]; exact h
    · rw [he]
      apply nsf_saveUser h
      rw [hid]
      rcases hfol with hfol | ⟨t, ht, hfol⟩
      · rw [hfol]; exact h user hmem
      · rw [hfol]
        intro hin
        rcases List.mem_append.mp hin with hin | hin
        · exact h user hmem hin
        · exact ht (List.mem_singleton.mp hin).symm
  | unfollow p name =>
    show NoSelfFollow (unfollowProfileRoute p name db).2
    rcases unfollowProfileRoute_state p name db with he | ⟨user, u2, hmem, hid, hfol, he⟩
    · rw [he]; exact h
    · rw [he]
      apply nsf_saveUser h
      rw [hid]
      intro hin
      exact h user hmem (hfol user.id hin)
  | createItemComment p slug cbody =>
    show NoSelfFollow (createItemCommentRoute p slug cbody db).2
    rcases createItemCommentRoute_state p slug cbody db with he | ⟨item, c, it2, _, _, _, _, _, he⟩
    · rw [he]; exact h
    · rw [he]; exact nsf_users_eq rfl h
  | deleteItemComment p slug cid =>
    show NoSelfFollow (deleteItemCommentRoute p slug cid db).2
    rcases deleteItemCommentRoute_state p slug cid db with he | ⟨item, comment, it2, _, _, _, _, he⟩
    · rw [he]; exact h
    · rw [he]; exact nsf_users_eq rfl h
  | commentsCreate cb =>
    show NoSelfFollow (commentsCreateRoute cb db).2
    exact nsf_users_eq (users_commentsCreateRoute cb db) h
  | commentsUpdate cid cb =>
    show NoSelfFollow (commentsUpdateRoute cid cb db).2
    exact nsf_users_eq (users_commentsUpdateRoute cid cb db) h
  | commentsDelete cid =>
    show NoSelfFollow (commentsDeleteRoute cid db).2
    exact nsf_users_eq (users_commentsDeleteRoute cid db) h

/-- C6: a self-follow always fails with ValidationError and changes nothing;
and in every reachable state no user follows itself. -/
theorem c6_no_self_follow :
    (∀ (db : DB) (name : String) (uid : UserId) (profile user : User),
      findUserByUsername db name = some profile → findUserById db uid = some user →
      profile.id = uid →
      followProfileRoute (some uid) name db = (RouteResult.validationFailed, db)) ∧
    (∀ db : DB, Reachable db → NoSelfFollow db) := by
  constructor
  · intro db name uid profile user hP hU heq
    have huid : user.id = uid := findUserById_id hU
    have hnone : user.follow profile.id = none := by
      unfold User.follow
      rw [if_pos (by simp [heq, huid])]
    simp only [followProfileRoute, hP, authRequired, hU, hnone]
  · intro db hr
    induction hr with
    | init =>
      intro u hu
      cases hu
    | step op db2 hr2 ih => exact nsf_step op db2 ih

/-- Witness for C6: alice following herself fails with ValidationError and
leaves the store unchanged; the empty store has no self-follows. -/
theorem c6_witness :
    followProfileRoute (some 0) "alice" sampleDB = (RouteResult.validationFailed, sampleDB) ∧
    NoSelfFollow emptyDB :=
  ⟨c6_no_self_follow.1 sampleDB "alice" 0 sampleAlice sampleAlice rfl rfl rfl,
   c6_no_self_follow.2 emptyDB Reachable.init⟩

lemma wf_empty : IdsOk emptyDB ∧ CommentsConsistent emptyDB := by
  refine ⟨⟨?_, ?_, ?_⟩, ?_⟩
  · intro i hi
    exact (List.not_mem_nil i hi).elim
  · intro c hc
    exact (List.not_mem_nil c hc).elim
  · exact List.nodup_nil
  · intro i hi
    exact (List.not_mem_nil i hi).elim

lemma wf_items_comments_eq (a b : DB) (hi : a.items = b.items) (hc : a.comments = b.comments)
    (hn : b.nextId ≤ a.nextId) (h : IdsOk b ∧ CommentsConsistent b) :
    IdsOk a ∧ CommentsConsistent a := by
  obtain ⟨⟨h1, h2, h3⟩, h4⟩ := h
  refine ⟨⟨?_, ?_, ?_⟩, ?_⟩
  · intro i hm
    rw [hi] at hm
    exact ⟨lt_of_lt_of_le (h1 i hm).1 hn, fun cid hx => lt_of_lt_of_le ((h1 i hm).2 cid hx) hn⟩
  · intro c hm
    rw [hc] at hm
    exact ⟨lt_of_lt_of_le (h2 c hm).1 hn, lt_of_lt_of_le (h2 c hm).2 hn⟩
  · rw [hc]
    exact h3
  · intro i hm cid
    rw [hi] at hm
    rw [hc]
    exact h4 i hm cid

lemma wf_saveItem_same_shape (db : DB) {item it2 : Item}
    (hmem : item ∈ db.items) (hid : it2.id = item.id) (hcom : it2.comments = item.comments)
    (h : IdsOk db ∧ CommentsConsistent db) :
    IdsOk (saveItem db it2) ∧ CommentsConsistent (saveItem db it2) := by
  obtain ⟨⟨h1, h2, h3⟩, h4⟩ := h
  refine ⟨⟨?_, ?_, ?_⟩, ?_⟩
  · intro i hm
    obtain ⟨j, hj, rfl⟩ := List.mem_map.mp hm
    by_cases hc2 : (j.id == it2.id) = true
    · simp only [hc2, if_true]
      refine ⟨?_, ?_⟩
      · rw [hid]
        exact (h1 item hmem).1
      · intro cid hx
        rw [hcom] at hx
        exact (h1 item hmem).2 cid hx
    · have hb2 : (j.id == it2.id) = false := by simpa using hc2
      simp only [hb2, Bool.false_eq_true, if_false]
      exact h1 j hj
  · exact h2
  · exact h3
  · intro i hm cid
    obtain ⟨j, hj, rfl⟩ := List.mem_map.mp hm
    by_cases hc2 : (j.id == it2.id) = true
    · simp only [hc2, if_true]
      rw [hcom, hid]
      exact h4 item hmem cid
    · have hb2 : (j.id == it2.id) = false := by simpa using hc2
      simp only [hb2, Bool.false_eq_true, if_false]
      exact h4 j hj cid

lemma wf_createItem {db : DB} {it : Item}
    (hid : it.id = db.nextId) (hcom : it.comments = [])
    (h : IdsOk db ∧ CommentsConsistent db) :
    IdsOk { db with items := db.items ++ [it], nextId := db.nextId + 1 } ∧
    CommentsConsistent { db with items := db.items ++ [it], nextId := db.nextId + 1 } := by
  obtain ⟨⟨h1, h2, h3⟩, h4⟩ := h
  refine ⟨⟨?_, ?_, ?_⟩, ?_⟩
  · intro i hm
    rcases List.mem_append.mp hm with hx | hx
    · exact ⟨Nat.lt_succ_of_lt (h1 i hx).1, fun cid hy => Nat.lt_succ_of_lt ((h1 i hx).2 cid hy)⟩
    · have hxe := List.mem_singleton.mp hx
      subst hxe
      refine ⟨?_, ?_⟩
      · rw [hid]
        exact Nat.lt_succ_self _
      · intro cid hy
        rw [hcom] at hy
        exact (List.not_mem_nil cid hy).elim
  · intro c hm
    exact ⟨Nat.lt_succ_of_lt (h2 c hm).1, Nat.lt_succ_of_lt (h2 c hm).2⟩
  · exact h3
  · intro i hm cid
    rcases List.mem_append.mp hm with hx | hx
    · exact h4 i hx cid
    · have hxe := List.mem_singleton.mp hx
      subst hxe
      rw [hcom]
      constructor
      · intro hy
        exact (List.not_mem_nil cid hy).elim
      · rintro ⟨c2, hc2, _, hci⟩
        have := (h2 c2 hc2).2
        rw [hci, hid] at this
        exact absurd this (lt_irrefl _)

lemma wf_cascade {db : DB} (iid : ItemId)
    (h : IdsOk db ∧ CommentsConsistent db) :
    IdsOk (cascadeDeleteItem db iid) ∧ CommentsConsistent (cascadeDeleteItem db iid) := by
  obtain ⟨⟨h1, h2, h3⟩, h4⟩ := h
  refine ⟨⟨?_, ?_, ?_⟩, ?_⟩
  · intro i hm
    exact h1 i (List.mem_filter.mp hm).1
  · intro c hm
    exact h2 c (List.mem_filter.mp hm).1
  · exact List.Nodup.sublist (List.Sublist.map Comment.id (List.filter_sublist _)) h3
  · intro i hm cid
    obtain ⟨hmi, hine⟩ := List.mem_filter.mp hm
    have hine2 : ¬ i.id = iid := by simpa using hine
    constructor
    · intro hx
      obtain ⟨c0, hc0, hce, hci⟩ := (h4 i hmi cid).mp hx
      refine ⟨c0, List.mem_filter.mpr ⟨hc0, ?_⟩, hce, hci⟩
      simp only [bne_iff_ne, ne_eq, decide_eq_true_eq]
      rw [hci]
      exact hine2
    · rintro ⟨c2, hc2, hce, hci⟩
      exact (h4 i hmi cid).mpr ⟨c2, (List.mem_filter.mp hc2).1, hce, hci⟩

lemma wf_createItemComment {db : DB} {item : Item} {c : Comment} {it2 : Item}
    (hmem : item ∈ db.items) (hcid : c.id = db.nextId) (hcit : c.item = item.id)
    (hid2 : it2.id = item.id) (hcom2 : it2.comments = item.comments ++ [c.id])
    (h : IdsOk db ∧ CommentsConsistent db) :
    IdsOk (saveItem { db with comments := db.comments ++ [c], nextId := db.nextId + 1 } it2) ∧
    CommentsConsistent
      (saveItem { db with comments := db.comments ++ [c], nextId := db.nextId + 1 } it2) := by
  obtain ⟨⟨h1, h2, h3⟩, h4⟩ := h
  refine ⟨⟨?_, ?_, ?_⟩, ?_⟩
  · intro i hm
    obtain ⟨j, hj, rfl⟩ := List.mem_map.mp hm
    by_cases hc2 : (j.id == it2.id) = true
    · simp only [hc2, if_true]
      refine ⟨?_, ?_⟩
      · rw [hid2]
        exact Nat.lt_succ_of_lt (h1 item hmem).1
      · intro cid hx
        rw [hcom2] at hx
        rcases List.mem_append.mp hx with hy | hy
        · exact Nat.lt_succ_of_lt ((h1 item hmem).2 cid hy)
        · rw [List.mem_singleton.mp hy, hcid]
          exact Nat.lt_succ_self _
    · have hb2 : (j.id == it2.id) = false := by simpa using hc2
      simp only [hb2, Bool.false_eq_true, if_false]
      exact ⟨Nat.lt_succ_of_lt (h1 j hj).1, fun cid hx => Nat.lt_succ_of_lt ((h1 j hj).2 cid hx)⟩
  · intro c2 hm
    rcases List.mem_append.mp hm with hx | hx
    · exact ⟨Nat.lt_succ_of_lt (h2 c2 hx).1, Nat.lt_succ_of_lt (h2 c2 hx).2⟩
    · have hxe := List.mem_singleton.mp hx
      subst hxe
      refine ⟨?_, ?_⟩
      · rw [hcid]
        exact Nat.lt_succ_self _
      · rw [hcit]
        exact Nat.lt_succ_of_lt (h1 item hmem).1
  · show ((db.comments ++ [c]).map Comment.id).Nodup
    rw [List.map_append]
    refine List.Nodup.append h3 (List.nodup_singleton _) ?_
    intro a ha hb
    obtain ⟨c0, hc0, rfl⟩ := List.mem_map.mp ha
    have hlt := (h2 c0 hc0).1
    have hae : c0.id = c.id := by simpa using hb
    rw [hae, hcid] at hlt
    exact absurd hlt (lt_irrefl _)
  · intro i hm cid
    obtain ⟨j, hj, rfl⟩ := List.mem_map.mp hm
    by_cases hc2 : (j.id == it2.id) = true
    · simp only [hc2, if_true]
      rw [hcom2, hid2]
      constructor
      · intro hx
        rcases List.mem_append.mp hx with hy | hy
        · obtain ⟨c0, hc0, hce, hci⟩ := (h4 item hmem cid).mp hy
          exact ⟨c0, List.mem_append_left _ hc0, hce, hci⟩
        · rw [List.mem_singleton.mp hy]
          exact ⟨c, List.mem_append_right _ (List.mem_singleton_self c), rfl, hcit⟩
      · rintro ⟨c2, hc2m, hce, hci⟩
        rcases List.mem_append.mp hc2m with hy | hy
        · exact List.mem_append_left _ ((h4 item hmem cid).mpr ⟨c2, hy, hce, hci⟩)
        · have hye : c2 = c := List.mem_singleton.mp hy
          subst hye
          apply List.mem_append_right
          rw [← hce]
          exact List.mem_singleton_self _
    · have hb2 : (j.id == it2.id) = false := by simpa using hc2
      simp only [hb2, Bool.false_eq_true, if_false]
      have hjne : ¬ j.id = item.id := by
        rw [← hid2]
        simpa using hc2
      constructor
      · intro hx
        obtain ⟨c0, hc0, hce, hci⟩ := (h4 j hj cid).mp hx
        exact ⟨c0, List.mem_append_left _ hc0, hce, hci⟩
      · rintro ⟨c2, hc2m, hce, hci⟩
        rcases List.mem_append.mp hc2m with hy | hy
        · exact (h4 j hj cid).mpr ⟨c2, hy, hce, hci⟩
        · have hye : c2 = c := List.mem_singleton.mp hy
          subst hye
          rw [hcit] at hci
          exact absurd hci.symm hjne

lemma wf_deleteItemComment {db : DB} {item : Item} {comment : Comment} {it2 : Item}
    (hmi : item ∈ db.items) (hmc : comment ∈ db.comments)
    (hguard : comment.item = item.id)
    (hid2 : it2.id = item.id)
    (hcom2 : it2.comments = item.comments.filter (fun d => d != comment.id))
    (h : IdsOk db ∧ CommentsConsistent db) :
    IdsOk { saveItem db it2 with
        comments := db.comments.filter (fun c2 => c2.id != comment.id) } ∧
    CommentsConsistent { saveItem db it2 with
        comments := db.comments.filter (fun c2 => c2.id != comment.id) } := by
  obtain ⟨⟨h1, h2, h3⟩, h4⟩ := h
  refine ⟨⟨?_, ?_, ?_⟩, ?_⟩
  · intro i hm
    obtain ⟨j, hj, rfl⟩ := List.mem_map.mp hm
    by_cases hc2 : (j.id == it2.id) = true
    · simp only [hc2, if_true]
      refine ⟨?_, ?_⟩
      · rw [hid2]
        exact (h1 item hmi).1
      · intro cid hx
        rw [hcom2] at hx
        exact (h1 item hmi).2 cid (List.mem_filter.mp hx).1
    · have hb2 : (j.id == it2.id) = false := by simpa using hc2
      simp only [hb2, Bool.false_eq_true, if_false]
      exact h1 j hj
  · intro c2 hm
    exact h2 c2 (List.mem_filter.mp hm).1
  · exact List.Nodup.sublist (List.Sublist.map Comment.id (List.filter_sublist _)) h3
  · intro i hm cid
    obtain ⟨j, hj, rfl⟩ := List.mem_map.mp hm
    by_cases hc2 : (j.id == it2.id) = true
    · simp only [hc2, if_true]
      rw [hcom2, hid2]
      constructor
      · intro hx
        obtain ⟨hx1, hx2⟩ := List.mem_filter.mp hx
        have hx3 : ¬ cid = comment.id := by simpa using hx2
        obtain ⟨c0, hc0, hce, hci⟩ := (h4 item hmi cid).mp hx1
        refine ⟨c0, List.mem_filter.mpr ⟨hc0, ?_⟩, hce, hci⟩
        simp only [bne_iff_ne, ne_eq, decide_eq_true_eq]
        rw [hce]
        exact hx3
      · rintro ⟨c2, hc2m, hce, hci⟩
        obtain ⟨hc2m1, hc2m2⟩ := List.mem_filter.mp hc2m
        apply List.mem_filter.mpr
        refine ⟨(h4 item hmi cid).mpr ⟨c2, hc2m1, hce, hci⟩, ?_⟩
        simp only [bne_iff_ne, ne_eq, decide_eq_true_eq]
        rw [← hce]
        simpa using hc2m2
    · have hb2 : (j.id == it2.id) = false := by simpa using hc2
      simp only [hb2, Bool.false_eq_true, if_false]
      have hjne : ¬ j.id = item.id := by
        rw [← hid2]
        simpa using hc2
      constructor
      · intro hx
        obtain ⟨c0, hc0, hce, hci⟩ := (h4 j hj cid).mp hx
        refine ⟨c0, List.mem_filter.mpr ⟨hc0, ?_⟩, hce, hci⟩
        simp only [bne_iff_ne, ne_eq, decide_eq_true_eq]
        intro heq
        have hc0e : c0 = comment :=
          eq_of_nodup_key Comment.id db.comments h3 comment c0 hmc hc0 heq
        subst hc0e
        rw [hguard] at hci
        exact hjne hci.symm
      · rintro ⟨c2, hc2m, hce, hci⟩
        exact (h4 j hj cid).mpr ⟨c2, (List.mem_filter.mp hc2m).1, hce, hci⟩

lemma wf_step (op : Op) (db : DB) (h : IdsOk db ∧ CommentsConsistent db)
    (hs : ScopedOp op db) : IdsOk (applyOp op db) ∧ CommentsConsistent (applyOp op db) := by
  cases op with
  | register nu =>
    show IdsOk (registerRoute nu db).2 ∧ CommentsConsistent (registerRoute nu db).2
    rcases registerRoute_state nu db with he | ⟨u, _, _, he⟩ <;> rw [he]
    · exact h
    · exact wf_items_comments_eq _ db rfl rfl (Nat.le_succ _) h
  | updateUser p b =>
    show IdsOk (updateUserRoute p b db).2 ∧ CommentsConsistent (updateUserRoute p b db).2
    rcases updateUserRoute_state p b db with he | ⟨uid, user, hU, he⟩ <;> rw [he]
    · exact h
    · exact wf_items_comments_eq _ db rfl rfl (le_refl _) h
  | createItem p ni =>
    show IdsOk (createItemRoute p ni db).2 ∧ CommentsConsistent (createItemRoute p ni db).2
    rcases createItemRoute_state p ni db with he | ⟨it, hid, hcom, he⟩ <;> rw [he]
    · exact h
    · exact wf_createItem hid hcom h
  | updateItem p slug b =>
    show IdsOk (updateItemRoute p slug b db).2 ∧ CommentsConsistent (updateItemRoute p slug b db).2
    rcases updateItemRoute_state p slug b db with he | ⟨item, it2, hmem, hid, hcom, he⟩ <;> rw [he]
    · exact h
    · exact wf_saveItem_same_shape db hmem hid hcom h
  | deleteItem p slug =>
    show IdsOk (deleteItemRoute p slug db).2 ∧ CommentsConsistent (deleteItemRoute p slug db).2
    rcases deleteItemRoute_state p slug db with he | ⟨iid, he⟩ <;> rw [he]
    · exact h
    · exact wf_cascade iid h
  | favorite p slug =>
    show IdsOk (favoriteItemRoute p slug db).2 ∧ CommentsConsistent (favoriteItemRoute p slug db).2
    rcases favoriteItemRoute_state p slug db with he | ⟨user, u2, item, it2, _, _, _, hmem, hid, hcom, he⟩ <;> rw [he]
    · exact h
    · exact wf_saveItem_same_shape (saveUser db u2) hmem hid hcom
        (wf_items_comments_eq (saveUser db u2) db rfl rfl (le_refl _) h)
  | unfavorite p slug =>
    show IdsOk (unfavoriteItemRoute p slug db).2 ∧
      CommentsConsistent (unfavoriteItemRoute p slug db).2
    rcases unfavoriteItemRoute_state p slug db with he | ⟨user, u2, item, it2, _, _, _, hmem, hid, hcom, he⟩ <;> rw [he]
    · exact h
    · exact wf_saveItem_same_shape (saveUser db u2) hmem hid hcom
        (wf_items_comments_eq (saveUser db u2) db rfl rfl (le_refl _) h)
  | follow p name =>
    show IdsOk (followProfileRoute p name db).2 ∧ CommentsConsistent (followProfileRoute p name db).2
    rcases followProfileRoute_state p name db with he | ⟨user, u2, _, _, _, he⟩ <;> rw [he]
    · exact h
    · exact wf_items_comments_eq _ db rfl rfl (le_refl _) h
  | unfollow p name =>
    show IdsOk (unfollowProfileRoute p name db).2 ∧
      CommentsConsistent (unfollowProfileRoute p name db).2
    rcases unfollowProfileRoute_state p name db with he | ⟨user, u2, _, _, _, he⟩ <;> rw [he]
    · exact h
    · exact wf_items_comments_eq _ db rfl rfl (le_refl _) h
  | createItemComment p slug cbody =>
    show IdsOk (createItemCommentRoute p slug cbody db).2 ∧
      CommentsConsistent (createItemCommentRoute p slug cbody db).2
    rcases createItemCommentRoute_state p slug cbody db with
      he | ⟨item, c, it2, hmem, hcid, hcit, hid2, hcom2, he⟩ <;> rw [he]
    · exact h
    · exact wf_createItemComment hmem hcid hcit hid2 hcom2 h
  | deleteItemComment p slug cid =>
    show IdsOk (deleteItemCommentRoute p slug cid db).2 ∧
      CommentsConsistent (deleteItemCommentRoute p slug cid db).2
    rcases deleteItemCommentRoute_state p slug cid db with
      he | ⟨item, comment, it2, hI, hC, hid2, hcom2, he⟩ <;> rw [he]
    · exact h
    · exact wf_deleteItemComment (findItemBySlug_mem hI) (findCommentById_mem hC)
        (hs item comment hI hC) hid2 hcom2 h
  | commentsCreate cb => exact hs.elim
  | commentsUpdate cid cb => exact hs.elim
  | commentsDelete cid => exact hs.elim

lemma reachableScoped_wf {db : DB} (h : ReachableScoped db) :
    IdsOk db ∧ CommentsConsistent db := by
  induction h with
  | init => exact wf_empty
  | step op db2 hr hsc ih => exact wf_step op db2 ih hsc

/-- C7 (amended): in every state reachable using the item-scoped comment
operations (creation, and deletion of a comment belonging to the addressed
item) together with the non-comment operations, each Item's comments list
contains exactly the ids of the Comments whose item reference equals that
Item's id.  The generic comments.js routes and mismatched item-scoped
deletes are excluded — the counterexample shows each of them breaks the
invariant. -/
theorem c7_comments_exact : ∀ db : DB, ReachableScoped db → CommentsConsistent db :=
  fun _ h => (reachableScoped_wf h).2

/-- Witness for C7: the state made of a registration, an item creation and
an item-scoped comment creation satisfies the invariant. -/
theorem c7_witness : CommentsConsistent c7Good :=
  c7_comments_exact c7Good
    (ReachableScoped.step cmtA _
      (ReachableScoped.step mkItemA _
        (ReachableScoped.step regAlice _ ReachableScoped.init trivial) trivial) trivial)

/-- Counterexample for C7 as stated: four reachable states violate the
invariant — after a generic comment delete, after an item-scoped delete
addressed through a different item, after a generic comment create, and
after a generic comment update repointing the item reference. -/
theorem c7_counterexample :
    (Reachable c7Chain1 ∧ ¬ CommentsConsistent c7Chain1) ∧
    (Reachable c7Chain2 ∧ ¬ CommentsConsistent c7Chain2) ∧
    (Reachable c7Chain3 ∧ ¬ CommentsConsistent c7Chain3) ∧
    (Reachable c7Chain4 ∧ ¬ CommentsConsistent c7Chain4) := by
  refine ⟨⟨?_, ?_⟩, ⟨?_, ?_⟩, ⟨?_, ?_⟩, ⟨?_, ?_⟩⟩
  · exact Reachable.step _ _ (Reachable.step _ _ (Reachable.step _ _
      (Reachable.step _ _ Reachable.init)))
  · intro h
    exact absurd ((h c7ItemA1 (by decide) 2).mp (by decide)) (by decide)
  · exact Reachable.step _ _ (Reachable.step _ _ (Reachable.step _ _
      (Reachable.step _ _ (Reachable.step _ _ Reachable.init))))
  · intro h
    exact absurd ((h c7ItemA3 (by decide) 3).mp (by decide)) (by decide)
  · exact Reachable.step _ _ (Reachable.step _ _ (Reachable.step _ _ Reachable.init))
  · intro h
    exact absurd ((h c7ItemA0 (by decide) 2).mpr (by decide)) (by decide)
  · exact Reachable.step _ _ (Reachable.step _ _ (Reachable.step _ _
      (Reachable.step _ _ Reachable.init)))
  · intro h
    exact absurd ((h c7ItemA1 (by decide) 2).mp (by decide)) (by decide)

end Anythink
